import Mathlib

/-!
Verification development for the OrbitPay token-release contracts
(`contracts/payroll_stream` and `contracts/vesting`).

The Soroban contracts are shallowly embedded:
* `Address` and `Symbol` values are opaque identifiers, modelled as `Nat`.
* `u64` timestamps and durations are modelled as `Nat` (the source never
  performs a `u64` subtraction without first establishing the guard that
  makes it non-negative, so `Nat` truncated subtraction agrees with the
  source on every executed path).
* `i128` amounts are modelled as `Int`.  Soroban contracts are built with
  overflow checks, so an overflowing operation traps (the transaction
  fails) rather than wrapping; the unbounded `Int` model is exact on every
  run that returns a value.
* Rust `/` on `i128` truncates toward zero, which is `Int.tdiv`.
* Storage reads/writes become explicit state passing: each operation takes
  the loaded record (and, where relevant, auxiliary cells such as the
  claim-history list or the stream counter) and returns the record it
  stores back, together with the value it returns and the list of token
  transfers it instructs.  `require_auth` and the `has_admin` guard are
  host collaborators that either pass or abort the call; they are elided,
  matching the spec's treatment of authorization as a collaborator.
* Fallible entry points return `Except` over the contract's error enum.
  The files `payroll_stream/src/errors.rs` and `vesting/src/errors.rs` are
  declared in the respective `lib.rs` but are absent from the sources; the
  error enums below are reconstructed from the variants used in `lib.rs`.
-/

namespace OrbitPay

/-- Account / token / symbol identifiers, opaque to the contracts. -/
abbrev Address := Nat

/-- Party of a token transfer: the contract's own escrow address or an
external account. -/
inductive Party where
  | contract : Party
  | ext : Address → Party
deriving DecidableEq, Repr

/-- A token transfer instruction issued to the token client
(`token::Client::transfer`). -/
structure Transfer where
  token : Address
  source : Party
  dest : Party
  amount : Int
deriving DecidableEq, Repr

/-! ### Payroll stream contract: data model (payroll_stream/src/types.rs) -/

/-- Status of a payment stream (`StreamStatus` in payroll_stream/src/types.rs). -/
inductive StreamStatus where
  | Active : StreamStatus
  | Paused : StreamStatus
  | Cancelled : StreamStatus
  | Completed : StreamStatus
deriving DecidableEq, Repr

/-- A payment stream record (`PayrollStream` in payroll_stream/src/types.rs). -/
structure PayrollStream where
  id : Nat
  sender : Address
  recipient : Address
  token : Address
  total_amount : Int
  claimed_amount : Int
  start_time : Nat
  end_time : Nat
  last_claim_time : Nat
  status : StreamStatus
  rate_per_second : Int
deriving DecidableEq, Repr

/-- Error enum of the payroll stream contract.  Reconstructed from the
variants used in payroll_stream/src/lib.rs (errors.rs is not present in
the sources). -/
inductive StreamError where
  | AlreadyInitialized : StreamError
  | NotInitialized : StreamError
  | InvalidRecipient : StreamError
  | InvalidAmount : StreamError
  | InvalidDuration : StreamError
  | InvalidStartTime : StreamError
  | StreamNotFound : StreamError
  | Unauthorized : StreamError
  | StreamAlreadyCancelled : StreamError
  | StreamCompleted : StreamError
  | NothingToClaim : StreamError
deriving DecidableEq, Repr

/-- Accrued ("total_accrued") amount of a stream at ledger time `now`:
the value of the local `total_accrued` (after the clamp) computed inside
`calculate_claimable` in payroll_stream/src/lib.rs, factored out so the
accrual amount can be named on its own.  The branch guards are those of
`calculate_claimable`. -/
def stream_accrued (now : Nat) (s : PayrollStream) : Int :=
  if now ≤ s.start_time then
    0
  else
    let effective_time := if s.end_time ≤ now then s.end_time else now
    let elapsed := effective_time - s.start_time
    if s.end_time ≤ s.start_time then
      0
    else
      let duration := s.end_time - s.start_time
      let total_accrued := Int.tdiv (s.total_amount * (elapsed : Int)) (duration : Int)
      if s.total_amount < total_accrued then s.total_amount else total_accrued

/-- Claimable amount of a stream at ledger time `now`
(`calculate_claimable` in payroll_stream/src/lib.rs): the clamped accrued
amount minus `claimed_amount`, with a defensive `0` when the accrued
amount is below `claimed_amount`. -/
def calculate_claimable (now : Nat) (s : PayrollStream) : Int :=
  if now ≤ s.start_time then
    0
  else if s.end_time ≤ s.start_time then
    0
  else
    let total_accrued := stream_accrued now s
    if total_accrued < s.claimed_amount then
      0
    else
      total_accrued - s.claimed_amount

/-! ### Vesting contract: data model (vesting/src/types.rs) -/

/-- Status of a vesting schedule (`VestingStatus` in vesting/src/types.rs). -/
inductive VestingStatus where
  | Active : VestingStatus
  | Revoked : VestingStatus
  | FullyClaimed : VestingStatus
deriving DecidableEq, Repr

/-- A vesting schedule record (`VestingSchedule` in vesting/src/types.rs). -/
structure VestingSchedule where
  id : Nat
  grantor : Address
  beneficiary : Address
  token : Address
  total_amount : Int
  claimed_amount : Int
  start_time : Nat
  cliff_duration : Nat
  cliff_amount : Int
  total_duration : Nat
  label : Nat
  status : VestingStatus
  revocable : Bool
deriving DecidableEq, Repr

/-- Error enum of the vesting contract.  Reconstructed from the variants
used in vesting/src/lib.rs (errors.rs is not present in the sources). -/
inductive VestingError where
  | AlreadyInitialized : VestingError
  | NotInitialized : VestingError
  | InvalidAmount : VestingError
  | InvalidSchedule : VestingError
  | InvalidCliffDuration : VestingError
  | ScheduleNotFound : VestingError
  | Unauthorized : VestingError
  | ScheduleRevoked : VestingError
  | AlreadyFullyClaimed : VestingError
  | NothingToClaim : VestingError
deriving DecidableEq, Repr

/-- Record of one successful claim (`ClaimRecord`, imported by
vesting/src/storage.rs; the struct itself is not in the sources, its two
fields are fixed by `add_claim_record`). -/
structure ClaimRecord where
  amount : Int
  timestamp : Nat
deriving DecidableEq, Repr

/-- Vested amount of a vesting schedule at ledger time `now`
(`calculate_vested` in vesting/src/lib.rs). -/
def calculate_vested (now : Nat) (s : VestingSchedule) : Int :=
  if now < s.start_time then
    0
  else
    let elapsed := now - s.start_time
    if elapsed < s.cliff_duration then
      0
    else if s.total_duration ≤ elapsed then
      s.total_amount
    else
      let remaining_amount := s.total_amount - s.cliff_amount
      let vesting_duration := s.total_duration - s.cliff_duration
      let time_since_cliff := elapsed - s.cliff_duration
      let vested_linear :=
        Int.tdiv (remaining_amount * (time_since_cliff : Int)) (vesting_duration : Int)
      s.cliff_amount + vested_linear

/-- Claim-history append (`add_claim_record` in vesting/src/storage.rs):
push one `ClaimRecord` onto the per-schedule history list. -/
def add_claim_record (history : List ClaimRecord) (amount : Int) (timestamp : Nat) :
    List ClaimRecord :=
  history ++ [{ amount := amount, timestamp := timestamp }]

/-! ### Specification-side accrual formulas (section 4.1 of the spec).

These two definitions follow the spec's words, not the source; they exist
only to be compared with `stream_accrued` and `calculate_vested`. -/

/-- Piecewise stream accrual formula as the spec states it: 0 at or before
`start`, `total` at or after `endt`, linear interpolation with truncating
division in between. -/
def spec_stream_accrued (total : Int) (start endt now : Nat) : Int :=
  if now ≤ start then
    0
  else if endt ≤ now then
    total
  else
    Int.tdiv (total * ((now - start : Nat) : Int)) (((endt - start : Nat)) : Int)

/-- Piecewise cliff-vesting accrual formula as the spec states it: 0 before
`start + cliffDur`, `total` at or after `start + totalDur`, and
`cliffAmt + (total - cliffAmt) * elapsedSinceCliff / (totalDur - cliffDur)`
in between, with truncating division. -/
def spec_vesting_accrued (total cliffAmt : Int) (start cliffDur totalDur now : Nat) : Int :=
  if now < start + cliffDur then
    0
  else if start + totalDur ≤ now then
    total
  else
    cliffAmt +
      Int.tdiv ((total - cliffAmt) * ((now - start - cliffDur : Nat) : Int))
        (((totalDur - cliffDur : Nat)) : Int)

/-! ### Payroll stream contract: operations (payroll_stream/src/lib.rs) -/

/-- Stream creation (`create_stream` in payroll_stream/src/lib.rs).  `now`
is the ledger timestamp, `count` the current stream counter (the id the
new stream receives).  Returns the stored record and the escrow transfer
it instructs, or the validation error. -/
def create_stream (now count : Nat) (sender recipient token : Address)
    (total_amount : Int) (start_time end_time : Nat) :
    Except StreamError (PayrollStream × List Transfer) :=
  if sender = recipient then
    .error .InvalidRecipient
  else if total_amount ≤ 0 then
    .error .InvalidAmount
  else if end_time ≤ start_time then
    .error .InvalidDuration
  else if start_time < now then
    .error .InvalidStartTime
  else
    let duration := end_time - start_time
    let rate_per_second := Int.tdiv total_amount (duration : Int)
    let s : PayrollStream :=
      { id := count, sender := sender, recipient := recipient, token := token,
        total_amount := total_amount, claimed_amount := 0,
        start_time := start_time, end_time := end_time,
        last_claim_time := start_time, status := .Active,
        rate_per_second := rate_per_second }
    .ok (s, [{ token := token, source := .ext sender, dest := .contract,
               amount := total_amount }])

/-- Stream claim (`claim` in payroll_stream/src/lib.rs), at the level of
the loaded record: the stored-back record, the returned amount, and the
instructed transfer. -/
def stream_claim (now : Nat) (recipient : Address) (s : PayrollStream) :
    Except StreamError (PayrollStream × Int × List Transfer) :=
  if s.recipient ≠ recipient then
    .error .Unauthorized
  else if s.status = .Cancelled then
    .error .StreamAlreadyCancelled
  else if s.status = .Completed then
    .error .StreamCompleted
  else
    let claimable := calculate_claimable now s
    if claimable ≤ 0 then
      .error .NothingToClaim
    else
      let claimed := s.claimed_amount + claimable
      let s' : PayrollStream :=
        { s with claimed_amount := claimed, last_claim_time := now,
                 status := if s.total_amount ≤ claimed then .Completed else s.status }
      .ok (s', claimable,
        [{ token := s.token, source := .contract, dest := .ext recipient,
           amount := claimable }])

/-- Stream cancellation (`cancel_stream` in payroll_stream/src/lib.rs):
the stored-back record and the instructed transfers (accrued-but-unclaimed
to the recipient when positive, remainder back to the sender when
positive). -/
def cancel_stream (now : Nat) (sender : Address) (s : PayrollStream) :
    Except StreamError (PayrollStream × List Transfer) :=
  if s.sender ≠ sender then
    .error .Unauthorized
  else if s.status = .Cancelled then
    .error .StreamAlreadyCancelled
  else if s.status = .Completed then
    .error .StreamCompleted
  else
    let claimable := calculate_claimable now s
    let refund := s.total_amount - s.claimed_amount - claimable
    let s' : PayrollStream := { s with status := .Cancelled }
    let ts1 : List Transfer :=
      if 0 < claimable then
        [{ token := s.token, source := .contract, dest := .ext s.recipient,
           amount := claimable }]
      else []
    let ts2 : List Transfer :=
      if 0 < refund then
        [{ token := s.token, source := .contract, dest := .ext sender,
           amount := refund }]
      else []
    .ok (s', ts1 ++ ts2)

/-! ### Batch stream creation (payroll_stream/src/lib.rs,
`create_batch_streams`).

The loop body issues, for each entry and in this order: the escrow
transfer, the `set_stream` write, and the two index appends; the counter
is written once after the loop.  To reason about what is issued before a
failing validation, the embedding returns the ordered list of issued
effects next to the `Except` result. -/

/-- Per-stream creation parameters (`CreateStreamParams` in
payroll_stream/src/types.rs). -/
structure CreateStreamParams where
  recipient : Address
  token : Address
  total_amount : Int
  start_time : Nat
  end_time : Nat
deriving DecidableEq, Repr

/-- Storage / token effect issued by `create_batch_streams`, in issue
order. -/
inductive BatchEffect where
  | transfer : Transfer → BatchEffect
  | setStream : Nat → PayrollStream → BatchEffect
  | addSenderStream : Address → Nat → BatchEffect
  | addRecipientStream : Address → Nat → BatchEffect
  | setStreamCount : Nat → BatchEffect
deriving DecidableEq, Repr

/-- Stream record built for one batch entry (loop body of
`create_batch_streams`), identical to the record built by
`create_stream`. -/
def batch_entry_stream (count : Nat) (sender : Address) (p : CreateStreamParams) :
    PayrollStream :=
  { id := count, sender := sender, recipient := p.recipient, token := p.token,
    total_amount := p.total_amount, claimed_amount := 0,
    start_time := p.start_time, end_time := p.end_time,
    last_claim_time := p.start_time, status := .Active,
    rate_per_second := Int.tdiv p.total_amount ((p.end_time - p.start_time : Nat) : Int) }

/-- Effects issued for one valid batch entry, in the source's issue
order. -/
def batch_entry_effects (count : Nat) (sender : Address) (p : CreateStreamParams) :
    List BatchEffect :=
  [ .transfer { token := p.token, source := .ext sender, dest := .contract,
                amount := p.total_amount },
    .setStream count (batch_entry_stream count sender p),
    .addSenderStream sender count,
    .addRecipientStream p.recipient count ]

/-- Loop of `create_batch_streams`: validates each entry, then issues its
effects and assigns it the next id; stops with the first validation error.
Returns the effects issued so far and either the id list (with the final
counter) or the error. -/
def batch_loop (now : Nat) (sender : Address) :
    Nat → List CreateStreamParams →
    List BatchEffect × Except StreamError (List Nat × Nat)
  | count, [] => ([], .ok ([], count))
  | count, p :: rest =>
    if sender = p.recipient then
      ([], .error .InvalidRecipient)
    else if p.total_amount ≤ 0 then
      ([], .error .InvalidAmount)
    else if p.end_time ≤ p.start_time then
      ([], .error .InvalidDuration)
    else if p.start_time < now then
      ([], .error .InvalidStartTime)
    else
      let head_effects := batch_entry_effects count sender p
      let tail := batch_loop now sender (count + 1) rest
      (head_effects ++ tail.1,
        match tail.2 with
        | .ok (ids, final) => .ok (count :: ids, final)
        | .error e => .error e)

/-- Batch stream creation (`create_batch_streams` in
payroll_stream/src/lib.rs): runs the loop from the current counter
`count0` and, on success, writes the final counter once.  Returns the
ordered effect list and either the ordered id list or the first entry's
validation error. -/
def create_batch_streams (now count0 : Nat) (sender : Address)
    (ps : List CreateStreamParams) :
    List BatchEffect × Except StreamError (List Nat) :=
  let r := batch_loop now sender count0 ps
  match r.2 with
  | .ok (ids, final) => (r.1 ++ [.setStreamCount final], .ok ids)
  | .error e => (r.1, .error e)

/-! ### Vesting contract: operations (vesting/src/lib.rs) -/

/-- Vesting schedule creation (`create_schedule` in vesting/src/lib.rs).
The source reads no ledger timestamp, so the embedding takes none; the
escrow transfer is an explicit TODO in the source (task SC-16), so no
transfer is instructed. -/
def create_schedule (count : Nat) (grantor beneficiary token : Address)
    (total_amount : Int) (start_time cliff_duration : Nat) (cliff_amount : Int)
    (total_duration : Nat) (label : Nat) (revocable : Bool) :
    Except VestingError (VestingSchedule × List Transfer) :=
  if total_amount ≤ 0 then
    .error .InvalidAmount
  else if total_duration = 0 then
    .error .InvalidSchedule
  else if total_duration ≤ cliff_duration then
    .error .InvalidCliffDuration
  else if cliff_amount < 0 ∨ total_amount < cliff_amount then
    .error .InvalidAmount
  else
    let s : VestingSchedule :=
      { id := count, grantor := grantor, beneficiary := beneficiary,
        token := token, total_amount := total_amount, claimed_amount := 0,
        start_time := start_time, cliff_duration := cliff_duration,
        cliff_amount := cliff_amount, total_duration := total_duration,
        label := label, status := .Active, revocable := revocable }
    .ok (s, [])

/-- Vesting claim (`claim` in vesting/src/lib.rs), at the level of the
loaded record plus the claim-history cell of the schedule: the stored-back
record, the history cell after the call, the returned amount, and the
instructed transfers.  The source neither calls `add_claim_record` nor
instructs a transfer (the transfer is TODO task SC-17), so the history is
returned unchanged and the transfer list is empty. -/
def vesting_claim (now : Nat) (beneficiary : Address) (s : VestingSchedule)
    (history : List ClaimRecord) :
    Except VestingError (VestingSchedule × List ClaimRecord × Int × List Transfer) :=
  if s.beneficiary ≠ beneficiary then
    .error .Unauthorized
  else if s.status = .Revoked then
    .error .ScheduleRevoked
  else if s.status = .FullyClaimed then
    .error .AlreadyFullyClaimed
  else
    let vested := calculate_vested now s
    let claimable := vested - s.claimed_amount
    if claimable ≤ 0 then
      .error .NothingToClaim
    else
      let claimed := s.claimed_amount + claimable
      let s' : VestingSchedule :=
        { s with claimed_amount := claimed,
                 status := if s.total_amount ≤ claimed then .FullyClaimed else s.status }
      .ok (s', history, claimable, [])

/-- Vesting revocation (`revoke` in vesting/src/lib.rs): the stored-back
record (status `Revoked`, `total_amount` capped to the vested amount) and
the returned unvested amount.  The source instructs no transfer (the
refund transfer is TODO task SC-18), so the transfer list is empty. -/
def revoke (now : Nat) (grantor : Address) (s : VestingSchedule) :
    Except VestingError (VestingSchedule × Int × List Transfer) :=
  if s.grantor ≠ grantor then
    .error .Unauthorized
  else if s.status = .Revoked then
    .error .ScheduleRevoked
  else if s.revocable = false then
    .error .Unauthorized
  else
    let vested := calculate_vested now s
    let unvested := s.total_amount - vested
    let s' : VestingSchedule :=
      { s with status := .Revoked, total_amount := vested }
    .ok (s', unvested, [])

/-- Progress snapshot (`VestingProgress` in vesting/src/types.rs). -/
structure VestingProgress where
  total_amount : Int
  vested_amount : Int
  claimed_amount : Int
  claimable_amount : Int
  status : VestingStatus
deriving DecidableEq, Repr

/-- Progress query (`get_progress` in vesting/src/lib.rs): pure
projection; the claimable field is clamped to be non-negative. -/
def get_progress (now : Nat) (s : VestingSchedule) : VestingProgress :=
  let vested := calculate_vested now s
  let claimable := vested - s.claimed_amount
  { total_amount := s.total_amount, vested_amount := vested,
    claimed_amount := s.claimed_amount,
    claimable_amount := if 0 < claimable then claimable else 0,
    status := s.status }

/-! ### Creation-validity predicates and operation traces.

`create_stream` / `create_schedule` admit exactly the parameter sets below
(timing well-ordered, amounts in range); the accrual lemmas assume them. -/

/-- Parameter validity a stream record has when it was admitted by
`create_stream`'s checks: positive total and a non-empty interval. -/
def StreamParamsOK (s : PayrollStream) : Prop :=
  0 < s.total_amount ∧ s.start_time < s.end_time

instance (s : PayrollStream) : Decidable (StreamParamsOK s) := by
  unfold StreamParamsOK; infer_instance

/-- Parameter validity a vesting record has when it was admitted by
`create_schedule`'s checks: positive total, non-empty duration, cliff
strictly inside it, cliff amount within `[0, total]`. -/
def VestingParamsOK (s : VestingSchedule) : Prop :=
  0 < s.total_amount ∧ 0 < s.total_duration ∧
  s.cliff_duration < s.total_duration ∧
  0 ≤ s.cliff_amount ∧ s.cliff_amount ≤ s.total_amount

instance (s : VestingSchedule) : Decidable (VestingParamsOK s) := by
  unfold VestingParamsOK; infer_instance

/-- Post-creation mutating entry point of the stream contract, with the
ledger timestamp at which it is called. -/
inductive StreamOp where
  | claimOp : Nat → Address → StreamOp
  | cancelOp : Nat → Address → StreamOp
deriving DecidableEq, Repr

/-- Ledger timestamp of a stream operation. -/
def StreamOp.time : StreamOp → Nat
  | .claimOp now _ => now
  | .cancelOp now _ => now

/-- Effect of one stream entry point on the stored record: the stored-back
record on success, the unchanged record on a failed call (a failed call
returns before any write). -/
def streamStep (s : PayrollStream) : StreamOp → PayrollStream
  | .claimOp now caller =>
    match stream_claim now caller s with
    | .ok (s', _, _) => s'
    | .error _ => s
  | .cancelOp now caller =>
    match cancel_stream now caller s with
    | .ok (s', _) => s'
    | .error _ => s

/-- Stored stream record after a sequence of claim / cancel calls. -/
def streamRun (s : PayrollStream) (ops : List StreamOp) : PayrollStream :=
  ops.foldl streamStep s

/-- Post-creation mutating entry point of the vesting contract, with the
ledger timestamp at which it is called. -/
inductive VestingOp where
  | claimOp : Nat → Address → VestingOp
  | revokeOp : Nat → Address → VestingOp
deriving DecidableEq, Repr

/-- Ledger timestamp of a vesting operation. -/
def VestingOp.time : VestingOp → Nat
  | .claimOp now _ => now
  | .revokeOp now _ => now

/-- Effect of one vesting entry point on the stored record (the
claim-history cell does not influence the record, so it is passed as
`[]`). -/
def vestingStep (s : VestingSchedule) : VestingOp → VestingSchedule
  | .claimOp now caller =>
    match vesting_claim now caller s [] with
    | .ok (s', _, _, _) => s'
    | .error _ => s
  | .revokeOp now caller =>
    match revoke now caller s with
    | .ok (s', _, _) => s'
    | .error _ => s

/-- Stored vesting record after a sequence of claim / revoke calls. -/
def vestingRun (s : VestingSchedule) (ops : List VestingOp) : VestingSchedule :=
  ops.foldl vestingStep s

/-- Ledger timestamps never decrease: `timesMono t ops` says the
operations in `ops` are stamped in non-decreasing order, starting no
earlier than `t`. -/
def timesMono : Nat → List StreamOp → Bool
  | _, [] => true
  | t, op :: rest => t ≤ op.time && timesMono op.time rest

/-- Ledger timestamps never decrease, vesting-side. -/
def vtimesMono : Nat → List VestingOp → Bool
  | _, [] => true
  | t, op :: rest => t ≤ op.time && vtimesMono op.time rest

/-- Bookkeeping invariant of a stream record: the claimed amount lies in
`[0, total_amount]`. -/
def StreamInv (s : PayrollStream) : Prop :=
  0 ≤ s.claimed_amount ∧ s.claimed_amount ≤ s.total_amount

instance (s : PayrollStream) : Decidable (StreamInv s) := by
  unfold StreamInv; infer_instance

/-- Inductive invariant of a vesting record at ledger time `t`: the
claimed amount lies in `[0, total_amount]`, and as long as the schedule
has not been revoked its creation-time parameter validity persists and
the claimed amount never exceeds the currently vested amount. -/
def VestingInv (t : Nat) (s : VestingSchedule) : Prop :=
  0 ≤ s.claimed_amount ∧ s.claimed_amount ≤ s.total_amount ∧
  (s.status ≠ .Revoked → VestingParamsOK s ∧ s.claimed_amount ≤ calculate_vested t s)

instance (t : Nat) (s : VestingSchedule) : Decidable (VestingInv t s) := by
  unfold VestingInv; infer_instance

/-- Validity of one batch entry: exactly the four checks of the loop body
of `create_batch_streams` (and of `create_stream`). -/
def EntryValid (now : Nat) (sender : Address) (p : CreateStreamParams) : Prop :=
  sender ≠ p.recipient ∧ 0 < p.total_amount ∧ p.start_time < p.end_time ∧
  now ≤ p.start_time

instance (now : Nat) (sender : Address) (p : CreateStreamParams) :
    Decidable (EntryValid now sender p) := by
  unfold EntryValid; infer_instance

/-- First failing check of a batch entry, `none` when the entry is
valid, in the check order of the loop body of `create_batch_streams`. -/
def entry_error (now : Nat) (sender : Address) (p : CreateStreamParams) :
    Option StreamError :=
  if sender = p.recipient then some .InvalidRecipient
  else if p.total_amount ≤ 0 then some .InvalidAmount
  else if p.end_time ≤ p.start_time then some .InvalidDuration
  else if p.start_time < now then some .InvalidStartTime
  else none

/-- Effects issued for a list of valid batch entries, ids assigned
sequentially from `count`. -/
def batch_all_effects (sender : Address) : Nat → List CreateStreamParams → List BatchEffect
  | _, [] => []
  | count, p :: rest =>
    batch_entry_effects count sender p ++ batch_all_effects sender (count + 1) rest

/-- Timestamp of the last operation of a vesting trace (`t` when the
trace is empty). -/
def vlastTime : Nat → List VestingOp → Nat
  | t, [] => t
  | _, op :: rest => vlastTime op.time rest

/-! ### Helper lemmas on truncating division.

All divisions in the contracts have non-negative dividends and positive
divisors, where Rust's truncating division agrees with Euclidean
division. -/

/-- Truncating division of non-negative integers is non-negative. -/
theorem tdiv_nonneg_of_nonneg {a d : Int} (ha : 0 ≤ a) (hd : 0 ≤ d) :
    0 ≤ Int.tdiv a d := by
  rw [Int.tdiv_eq_ediv ha hd]
  exact Int.ediv_nonneg ha hd

/-- Truncating division by a positive divisor is monotone in a
non-negative dividend. -/
theorem tdiv_mono_num {a b d : Int} (ha : 0 ≤ a) (hab : a ≤ b) (hd : 0 < d) :
    Int.tdiv a d ≤ Int.tdiv b d := by
  rw [Int.tdiv_eq_ediv ha hd.le, Int.tdiv_eq_ediv (le_trans ha hab) hd.le]
  exact Int.ediv_le_ediv hd hab

/-- Truncating division bound: if `a ≤ c * d` then `a tdiv d ≤ c`. -/
theorem tdiv_le_of_le_mul {a c d : Int} (ha : 0 ≤ a) (hd : 0 < d) (h : a ≤ c * d) :
    Int.tdiv a d ≤ c := by
  rw [Int.tdiv_eq_ediv ha hd.le]
  calc a / d ≤ c * d / d := Int.ediv_le_ediv hd h
    _ = c := Int.mul_ediv_cancel _ (ne_of_gt hd)

/-- Truncating division is exact on multiples: `(a * d) tdiv d = a` for
`0 ≤ a`, `0 < d`. -/
theorem tdiv_mul_cancel {a d : Int} (ha : 0 ≤ a) (hd : 0 < d) :
    Int.tdiv (a * d) d = a := by
  rw [Int.tdiv_eq_ediv (by positivity) hd.le]
  exact Int.mul_ediv_cancel _ (ne_of_gt hd)

/-! ### Lemmas about the stream accrual amount. -/

/-- Accrued stream amount is non-negative. -/
theorem stream_accrued_nonneg (now : Nat) (s : PayrollStream)
    (h : 0 ≤ s.total_amount) : 0 ≤ stream_accrued now s := by
  simp only [stream_accrued]
  split_ifs <;>
    first
      | exact le_refl 0
      | exact h
      | exact tdiv_nonneg_of_nonneg (by positivity) (by positivity)

/-- Accrued stream amount never exceeds the total. -/
theorem stream_accrued_le_total (now : Nat) (s : PayrollStream)
    (h : 0 ≤ s.total_amount) : stream_accrued now s ≤ s.total_amount := by
  simp only [stream_accrued]
  split_ifs <;> first | exact h | exact le_refl _ | omega

/-- Accrued stream amount is monotone in the query time. -/
theorem stream_accrued_mono (s : PayrollStream) {t1 t2 : Nat}
    (hp : StreamParamsOK s) (h12 : t1 ≤ t2) :
    stream_accrued t1 s ≤ stream_accrued t2 s := by
  obtain ⟨htot, hse⟩ := hp
  by_cases h1 : t1 ≤ s.start_time
  · have : stream_accrued t1 s = 0 := by
      simp only [stream_accrued]
      rw [if_pos h1]
    rw [this]
    exact stream_accrued_nonneg t2 s htot.le
  · have h2 : ¬ t2 ≤ s.start_time := by omega
    have hde : ¬ s.end_time ≤ s.start_time := by omega
    simp only [stream_accrued, h1, h2, hde, if_neg, if_false]
    set e1 : Nat := (if s.end_time ≤ t1 then s.end_time else t1) - s.start_time with he1
    set e2 : Nat := (if s.end_time ≤ t2 then s.end_time else t2) - s.start_time with he2
    have hee : e1 ≤ e2 := by
      rw [he1, he2]
      split <;> split <;> omega
    have hd : (0 : Int) < ((s.end_time - s.start_time : Nat) : Int) := by
      have : 0 < s.end_time - s.start_time := by omega
      exact_mod_cast this
    have hnum : s.total_amount * (e1 : Int) ≤ s.total_amount * (e2 : Int) := by
      apply mul_le_mul_of_nonneg_left _ htot.le
      exact_mod_cast hee
    have hta := tdiv_mono_num (a := s.total_amount * (e1 : Int))
      (b := s.total_amount * (e2 : Int)) (d := ((s.end_time - s.start_time : Nat) : Int))
      (by positivity) hnum hd
    set ta1 := Int.tdiv (s.total_amount * (e1 : Int)) ((s.end_time - s.start_time : Nat) : Int)
    set ta2 := Int.tdiv (s.total_amount * (e2 : Int)) ((s.end_time - s.start_time : Nat) : Int)
    by_cases hc2 : s.total_amount < ta2
    · simp only [hc2, if_pos]
      split
      · exact le_refl _
      · omega
    · simp only [hc2, if_neg, if_false]
      have hc1 : ¬ s.total_amount < ta1 := by omega
      simp only [hc1, if_neg, if_false]
      exact hta

/-! ### Agreement of the code's accrual computations with the spec's
piecewise formulas, and the resulting bounds for the vesting side. -/

/-- Accrued stream amount computed by the code equals the spec's piecewise
formula, for creation-valid parameters. -/
theorem stream_accrued_eq_spec (now : Nat) (s : PayrollStream)
    (hp : StreamParamsOK s) :
    stream_accrued now s =
      spec_stream_accrued s.total_amount s.start_time s.end_time now := by
  obtain ⟨htot, hse⟩ := hp
  have hd : (0 : Int) < ((s.end_time - s.start_time : Nat) : Int) := by
    have : 0 < s.end_time - s.start_time := by omega
    exact_mod_cast this
  by_cases h1 : now ≤ s.start_time
  · simp only [stream_accrued, spec_stream_accrued, if_pos h1]
  · by_cases h2 : s.end_time ≤ now
    · have hcode : stream_accrued now s = s.total_amount := by
        simp only [stream_accrued, if_neg h1, if_pos h2,
          if_neg (show ¬ s.end_time ≤ s.start_time by omega)]
        rw [tdiv_mul_cancel htot.le hd]
        simp
      rw [hcode]
      simp only [spec_stream_accrued, if_neg h1, if_pos h2]
    · have hle : Int.tdiv (s.total_amount * ((now - s.start_time : Nat) : Int))
          ((s.end_time - s.start_time : Nat) : Int) ≤ s.total_amount := by
        apply tdiv_le_of_le_mul (by positivity) hd
        apply mul_le_mul_of_nonneg_left _ htot.le
        have : now - s.start_time ≤ s.end_time - s.start_time := by omega
        exact_mod_cast this
      simp only [stream_accrued, if_neg h1, if_neg h2,
        if_neg (show ¬ s.end_time ≤ s.start_time by omega)]
      rw [if_neg (by omega)]
      simp only [spec_stream_accrued, if_neg h1, if_neg h2]

/-- Stream claimable equals the accrued amount minus the claimed amount,
clamped to be non-negative. -/
theorem calculate_claimable_eq_max (now : Nat) (s : PayrollStream)
    (hc : 0 ≤ s.claimed_amount) :
    calculate_claimable now s = max 0 (stream_accrued now s - s.claimed_amount) := by
  simp only [calculate_claimable]
  split_ifs with h1 h2 h3
  · have h0 : stream_accrued now s = 0 := by
      simp only [stream_accrued, if_pos h1]
    rw [h0, max_eq_left (by omega)]
  · have h0 : stream_accrued now s = 0 := by
      simp only [stream_accrued, if_neg h1, if_pos h2]
    rw [h0, max_eq_left (by omega)]
  · rw [max_eq_left (by omega)]
  · rw [max_eq_right (by omega)]

/-- Vested amount computed by the code equals the spec's piecewise
formula (no parameter hypothesis is needed: the branch structures
coincide on all inputs). -/
theorem calculate_vested_eq_spec (now : Nat) (s : VestingSchedule) :
    calculate_vested now s =
      spec_vesting_accrued s.total_amount s.cliff_amount s.start_time
        s.cliff_duration s.total_duration now := by
  simp only [calculate_vested, spec_vesting_accrued]
  split_ifs <;> first | rfl | omega

/-- Spec-form vesting accrual is non-negative. -/
theorem spec_vesting_nonneg (total cliffAmt : Int) (start cliffDur totalDur now : Nat)
    (hca : 0 ≤ cliffAmt) (hct : cliffAmt ≤ total) :
    0 ≤ spec_vesting_accrued total cliffAmt start cliffDur totalDur now := by
  simp only [spec_vesting_accrued]
  split_ifs
  · exact le_refl 0
  · omega
  · have := tdiv_nonneg_of_nonneg
      (mul_nonneg (show (0 : Int) ≤ total - cliffAmt by omega)
        (by positivity : (0 : Int) ≤ ((now - start - cliffDur : Nat) : Int)))
      (by positivity : (0 : Int) ≤ ((totalDur - cliffDur : Nat) : Int))
    omega

/-- Spec-form vesting accrual never exceeds the total. -/
theorem spec_vesting_le_total (total cliffAmt : Int) (start cliffDur totalDur now : Nat)
    (hca : 0 ≤ cliffAmt) (hct : cliffAmt ≤ total) (hdur : cliffDur < totalDur) :
    spec_vesting_accrued total cliffAmt start cliffDur totalDur now ≤ total := by
  have hvd : (0 : Int) < ((totalDur - cliffDur : Nat) : Int) := by
    have : 0 < totalDur - cliffDur := by omega
    exact_mod_cast this
  simp only [spec_vesting_accrued]
  split_ifs with h1 h2
  · omega
  · exact le_refl total
  · have hbound : Int.tdiv ((total - cliffAmt) * ((now - start - cliffDur : Nat) : Int))
        ((totalDur - cliffDur : Nat) : Int) ≤ total - cliffAmt := by
      apply tdiv_le_of_le_mul (mul_nonneg (by omega) (by positivity)) hvd
      apply mul_le_mul_of_nonneg_left _ (by omega : (0 : Int) ≤ total - cliffAmt)
      have : now - start - cliffDur ≤ totalDur - cliffDur := by omega
      exact_mod_cast this
    omega

/-- Spec-form vesting accrual is monotone in the query time. -/
theorem spec_vesting_mono (total cliffAmt : Int) (start cliffDur totalDur : Nat)
    {t1 t2 : Nat} (hca : 0 ≤ cliffAmt) (hct : cliffAmt ≤ total)
    (hdur : cliffDur < totalDur) (h12 : t1 ≤ t2) :
    spec_vesting_accrued total cliffAmt start cliffDur totalDur t1 ≤
      spec_vesting_accrued total cliffAmt start cliffDur totalDur t2 := by
  have hvd : (0 : Int) < ((totalDur - cliffDur : Nat) : Int) := by
    have : 0 < totalDur - cliffDur := by omega
    exact_mod_cast this
  by_cases a : t1 < start + cliffDur
  · have e1 : spec_vesting_accrued total cliffAmt start cliffDur totalDur t1 = 0 := by
      simp only [spec_vesting_accrued, if_pos a]
    rw [e1]
    exact spec_vesting_nonneg total cliffAmt start cliffDur totalDur t2 hca hct
  · by_cases b : start + totalDur ≤ t1
    · have e1 : spec_vesting_accrued total cliffAmt start cliffDur totalDur t1 = total := by
        simp only [spec_vesting_accrued, if_neg a, if_pos b]
      have e2 : spec_vesting_accrued total cliffAmt start cliffDur totalDur t2 = total := by
        simp only [spec_vesting_accrued, if_neg (show ¬ t2 < start + cliffDur by omega),
          if_pos (show start + totalDur ≤ t2 by omega)]
      rw [e1, e2]
    · have e1 : spec_vesting_accrued total cliffAmt start cliffDur totalDur t1 =
          cliffAmt + Int.tdiv ((total - cliffAmt) * ((t1 - start - cliffDur : Nat) : Int))
            ((totalDur - cliffDur : Nat) : Int) := by
        simp only [spec_vesting_accrued, if_neg a, if_neg b]
      by_cases c : start + totalDur ≤ t2
      · have e2 : spec_vesting_accrued total cliffAmt start cliffDur totalDur t2 = total := by
          simp only [spec_vesting_accrued, if_neg (show ¬ t2 < start + cliffDur by omega),
            if_pos c]
        rw [e2]
        exact spec_vesting_le_total total cliffAmt start cliffDur totalDur t1 hca hct hdur
      · have e2 : spec_vesting_accrued total cliffAmt start cliffDur totalDur t2 =
            cliffAmt + Int.tdiv ((total - cliffAmt) * ((t2 - start - cliffDur : Nat) : Int))
              ((totalDur - cliffDur : Nat) : Int) := by
          simp only [spec_vesting_accrued, if_neg (show ¬ t2 < start + cliffDur by omega),
            if_neg c]
        rw [e1, e2]
        have hmono := tdiv_mono_num
          (a := (total - cliffAmt) * ((t1 - start - cliffDur : Nat) : Int))
          (b := (total - cliffAmt) * ((t2 - start - cliffDur : Nat) : Int))
          (d := ((totalDur - cliffDur : Nat) : Int))
          (mul_nonneg (by omega) (by positivity))
          (by
            apply mul_le_mul_of_nonneg_left _ (by omega : (0 : Int) ≤ total - cliffAmt)
            have : t1 - start - cliffDur ≤ t2 - start - cliffDur := by omega
            exact_mod_cast this)
          hvd
        omega

/-- Vested amount is non-negative, for creation-valid parameters. -/
theorem calculate_vested_nonneg (now : Nat) (s : VestingSchedule)
    (hp : VestingParamsOK s) : 0 ≤ calculate_vested now s := by
  rw [calculate_vested_eq_spec]
  exact spec_vesting_nonneg _ _ _ _ _ _ hp.2.2.2.1 hp.2.2.2.2

/-- Vested amount never exceeds the total, for creation-valid
parameters. -/
theorem calculate_vested_le_total (now : Nat) (s : VestingSchedule)
    (hp : VestingParamsOK s) : calculate_vested now s ≤ s.total_amount := by
  rw [calculate_vested_eq_spec]
  exact spec_vesting_le_total _ _ _ _ _ _ hp.2.2.2.1 hp.2.2.2.2 hp.2.2.1

/-- Vested amount is monotone in the query time, for creation-valid
parameters. -/
theorem calculate_vested_mono (s : VestingSchedule) {t1 t2 : Nat}
    (hp : VestingParamsOK s) (h12 : t1 ≤ t2) :
    calculate_vested t1 s ≤ calculate_vested t2 s := by
  rw [calculate_vested_eq_spec, calculate_vested_eq_spec]
  exact spec_vesting_mono _ _ _ _ _ hp.2.2.2.1 hp.2.2.2.2 hp.2.2.1 h12

/-- Progress-query claimable equals the vested amount minus the claimed
amount, clamped to be non-negative. -/
theorem get_progress_claimable_eq_max (now : Nat) (s : VestingSchedule) :
    (get_progress now s).claimable_amount =
      max 0 (calculate_vested now s - s.claimed_amount) := by
  simp only [get_progress]
  split_ifs with h
  · rw [max_eq_right (by omega)]
  · rw [max_eq_left (by omega)]

/-! ### Characterizations of the successful executions of each entry
point. -/

/-- Successful `create_stream`: the checks that were passed and the exact
record and escrow transfer produced. -/
theorem create_stream_ok {now count : Nat} {sender recipient token : Address}
    {total_amount : Int} {start_time end_time : Nat} {s : PayrollStream}
    {ts : List Transfer}
    (h : create_stream now count sender recipient token total_amount start_time end_time
       = .ok (s, ts)) :
    sender ≠ recipient ∧ 0 < total_amount ∧ start_time < end_time ∧
    now ≤ start_time ∧
    s = { id := count, sender := sender, recipient := recipient, token := token,
          total_amount := total_amount, claimed_amount := 0,
          start_time := start_time, end_time := end_time,
          last_claim_time := start_time, status := .Active,
          rate_per_second :=
            Int.tdiv total_amount ((end_time - start_time : Nat) : Int) } ∧
    ts = [{ token := token, source := .ext sender, dest := .contract,
            amount := total_amount }] := by
  simp only [create_stream] at h
  split_ifs at h with h1 h2 h3 h4
  simp only [Except.ok.injEq, Prod.mk.injEq] at h
  exact ⟨h1, by omega, by omega, by omega, h.1.symm, h.2.symm⟩

/-- Successful stream `claim`: the checks that were passed, the claimed
amount, and the exact stored-back record and transfer. -/
theorem stream_claim_ok {now : Nat} {caller : Address} {s s' : PayrollStream}
    {amt : Int} {ts : List Transfer}
    (h : stream_claim now caller s = .ok (s', amt, ts)) :
    s.recipient = caller ∧ s.status ≠ .Cancelled ∧ s.status ≠ .Completed ∧
    amt = calculate_claimable now s ∧ 0 < amt ∧
    s' = { s with claimed_amount := s.claimed_amount + amt,
                  last_claim_time := now,
                  status := if s.total_amount ≤ s.claimed_amount + amt then
                      .Completed
                    else s.status } ∧
    ts = [{ token := s.token, source := .contract, dest := .ext caller,
            amount := amt }] := by
  simp only [stream_claim] at h
  split_ifs at h with h1 h2 h3 h4 h5
  · simp only [Except.ok.injEq, Prod.mk.injEq] at h
    obtain ⟨hs, hamt, hts⟩ := h
    subst hamt
    push_neg at h1
    refine ⟨h1, h2, h3, rfl, by omega, ?_, hts.symm⟩
    rw [if_pos h5]
    exact hs.symm
  · simp only [Except.ok.injEq, Prod.mk.injEq] at h
    obtain ⟨hs, hamt, hts⟩ := h
    subst hamt
    push_neg at h1
    refine ⟨h1, h2, h3, rfl, by omega, ?_, hts.symm⟩
    rw [if_neg h5]
    exact hs.symm

/-- Successful `cancel_stream`: the checks that were passed and the exact
stored-back record and transfers. -/
theorem cancel_stream_ok {now : Nat} {caller : Address} {s s' : PayrollStream}
    {ts : List Transfer}
    (h : cancel_stream now caller s = .ok (s', ts)) :
    s.sender = caller ∧ s.status ≠ .Cancelled ∧ s.status ≠ .Completed ∧
    s' = { s with status := .Cancelled } ∧
    ts = (if 0 < calculate_claimable now s then
            [{ token := s.token, source := .contract, dest := .ext s.recipient,
               amount := calculate_claimable now s }]
          else []) ++
         (if 0 < s.total_amount - s.claimed_amount - calculate_claimable now s then
            [{ token := s.token, source := .contract, dest := .ext caller,
               amount := s.total_amount - s.claimed_amount
                 - calculate_claimable now s }]
          else []) := by
  simp only [cancel_stream] at h
  split_ifs at h with h1 h2 h3 h4 h5 h6 <;>
    (simp only [Except.ok.injEq, Prod.mk.injEq] at h
     push_neg at h1
     refine ⟨h1, h2, h3, h.1.symm, ?_⟩) <;>
    simp_all

/-- Successful `create_schedule`: the checks that were passed and the
exact record produced; no transfer is instructed (escrow transfer is TODO
in the source). -/
theorem create_schedule_ok {count : Nat} {grantor beneficiary token : Address}
    {total_amount : Int} {start_time cliff_duration : Nat} {cliff_amount : Int}
    {total_duration : Nat} {label : Nat} {revocable : Bool}
    {s : VestingSchedule} {ts : List Transfer}
    (h : create_schedule count grantor beneficiary token total_amount start_time
        cliff_duration cliff_amount total_duration label revocable = .ok (s, ts)) :
    0 < total_amount ∧ 0 < total_duration ∧ cliff_duration < total_duration ∧
    0 ≤ cliff_amount ∧ cliff_amount ≤ total_amount ∧
    s = { id := count, grantor := grantor, beneficiary := beneficiary,
          token := token, total_amount := total_amount, claimed_amount := 0,
          start_time := start_time, cliff_duration := cliff_duration,
          cliff_amount := cliff_amount, total_duration := total_duration,
          label := label, status := .Active, revocable := revocable } ∧
    ts = [] := by
  simp only [create_schedule] at h
  split_ifs at h with h1 h2 h3 h4
  simp only [Except.ok.injEq, Prod.mk.injEq] at h
  push_neg at h4
  exact ⟨by omega, by omega, by omega, h4.1, h4.2, h.1.symm, h.2.symm⟩

/-- Successful vesting `claim`: the checks that were passed, the claimed
amount, the exact stored-back record; the claim history is returned
unchanged and no transfer is instructed. -/
theorem vesting_claim_ok {now : Nat} {caller : Address} {s s' : VestingSchedule}
    {hist hist' : List ClaimRecord} {amt : Int} {ts : List Transfer}
    (h : vesting_claim now caller s hist = .ok (s', hist', amt, ts)) :
    s.beneficiary = caller ∧ s.status ≠ .Revoked ∧ s.status ≠ .FullyClaimed ∧
    amt = calculate_vested now s - s.claimed_amount ∧ 0 < amt ∧
    s' = { s with claimed_amount := s.claimed_amount + amt,
                  status := if s.total_amount ≤ s.claimed_amount + amt then
                      .FullyClaimed
                    else s.status } ∧
    hist' = hist ∧ ts = [] := by
  simp only [vesting_claim] at h
  split_ifs at h with h1 h2 h3 h4 h5
  · simp only [Except.ok.injEq, Prod.mk.injEq] at h
    obtain ⟨hs, hh, hamt, hts⟩ := h
    subst hamt
    push_neg at h1
    refine ⟨h1, h2, h3, rfl, by omega, ?_, hh.symm, hts.symm⟩
    rw [if_pos h5]
    exact hs.symm
  · simp only [Except.ok.injEq, Prod.mk.injEq] at h
    obtain ⟨hs, hh, hamt, hts⟩ := h
    subst hamt
    push_neg at h1
    refine ⟨h1, h2, h3, rfl, by omega, ?_, hh.symm, hts.symm⟩
    rw [if_neg h5]
    exact hs.symm

/-- Successful `revoke`: the checks that were passed, the returned
unvested amount, the exact stored-back record (status `Revoked`, total
capped to the vested amount); no transfer is instructed. -/
theorem revoke_ok {now : Nat} {caller : Address} {s s' : VestingSchedule}
    {unv : Int} {ts : List Transfer}
    (h : revoke now caller s = .ok (s', unv, ts)) :
    s.grantor = caller ∧ s.status ≠ .Revoked ∧ s.revocable = true ∧
    unv = s.total_amount - calculate_vested now s ∧
    s' = { s with status := .Revoked, total_amount := calculate_vested now s } ∧
    ts = [] := by
  simp only [revoke] at h
  split_ifs at h with h1 h2 h3
  simp only [Except.ok.injEq, Prod.mk.injEq] at h
  obtain ⟨hs, hu, hts⟩ := h
  push_neg at h1
  refine ⟨h1, h2, ?_, hu.symm, hs.symm, hts.symm⟩
  cases hrev : s.revocable
  · exact absurd hrev h3
  · rfl

/-! ### Preservation of the bookkeeping invariants by every entry
point. -/

/-- One stream entry point preserves `StreamInv` and never decreases the
claimed amount. -/
theorem streamStep_inv (s : PayrollStream) (op : StreamOp) (h : StreamInv s) :
    StreamInv (streamStep s op) ∧
      s.claimed_amount ≤ (streamStep s op).claimed_amount := by
  obtain ⟨hc0, hct⟩ := h
  cases op with
  | claimOp now caller =>
    rcases hres : stream_claim now caller s with e | ⟨s', amt, ts⟩
    · simp only [streamStep, hres]
      exact ⟨⟨hc0, hct⟩, le_refl _⟩
    · simp only [streamStep, hres]
      obtain ⟨_, _, _, hamt, hpos, hs', _⟩ := stream_claim_ok hres
      have hmax : amt = max 0 (stream_accrued now s - s.claimed_amount) := by
        rw [hamt]
        exact calculate_claimable_eq_max now s hc0
      have haccr : s.claimed_amount + amt = stream_accrued now s := by
        rcases le_or_lt (stream_accrued now s - s.claimed_amount) 0 with hle | hlt
        · rw [max_eq_left hle] at hmax
          omega
        · rw [max_eq_right hlt.le] at hmax
          omega
      have hub := stream_accrued_le_total now s (by omega)
      subst hs'
      refine ⟨⟨?_, ?_⟩, ?_⟩
      · show (0 : Int) ≤ s.claimed_amount + amt
        omega
      · show s.claimed_amount + amt ≤ s.total_amount
        omega
      · show s.claimed_amount ≤ s.claimed_amount + amt
        omega
  | cancelOp now caller =>
    rcases hres : cancel_stream now caller s with e | ⟨s', ts⟩
    · simp only [streamStep, hres]
      exact ⟨⟨hc0, hct⟩, le_refl _⟩
    · simp only [streamStep, hres]
      obtain ⟨_, _, _, hs', _⟩ := cancel_stream_ok hres
      subst hs'
      exact ⟨⟨hc0, hct⟩, le_refl _⟩

/-- Every sequence of stream entry points preserves `StreamInv`. -/
theorem streamRun_inv (ops : List StreamOp) (s : PayrollStream) (h : StreamInv s) :
    StreamInv (streamRun s ops) := by
  induction ops generalizing s with
  | nil => exact h
  | cons op rest ih =>
    have hstep := (streamStep_inv s op h).1
    simpa [streamRun, List.foldl_cons] using ih (streamStep s op) hstep

/-- Advancing the reference time preserves the vesting invariant. -/
theorem VestingInv_weaken {t t' : Nat} {s : VestingSchedule}
    (h : VestingInv t s) (ht : t ≤ t') : VestingInv t' s := by
  obtain ⟨h1, h2, h3⟩ := h
  refine ⟨h1, h2, fun hs => ?_⟩
  obtain ⟨hp, hcv⟩ := h3 hs
  exact ⟨hp, le_trans hcv (calculate_vested_mono s hp ht)⟩

/-- One vesting entry point, called at its own timestamp, preserves the
vesting invariant and never decreases the claimed amount. -/
theorem vestingStep_inv (s : VestingSchedule) (op : VestingOp)
    (h : VestingInv op.time s) :
    VestingInv op.time (vestingStep s op) ∧
      s.claimed_amount ≤ (vestingStep s op).claimed_amount := by
  obtain ⟨hc0, hct, hact⟩ := h
  cases op with
  | claimOp now caller =>
    rcases hres : vesting_claim now caller s [] with e | ⟨s', hist', amt, ts⟩
    · simp only [vestingStep, hres]
      exact ⟨⟨hc0, hct, hact⟩, le_refl _⟩
    · simp only [vestingStep, hres]
      obtain ⟨_, hnr, _, hamt, hpos, hs', _, _⟩ := vesting_claim_ok hres
      obtain ⟨hp, hcv⟩ := hact hnr
      have hub := calculate_vested_le_total now s hp
      subst hs'
      refine ⟨⟨?_, ?_, ?_⟩, ?_⟩
      · show (0 : Int) ≤ s.claimed_amount + amt
        omega
      · show s.claimed_amount + amt ≤ s.total_amount
        omega
      · intro _
        constructor
        · exact hp
        · show s.claimed_amount + amt ≤ calculate_vested now s
          omega
      · show s.claimed_amount ≤ s.claimed_amount + amt
        omega
  | revokeOp now caller =>
    rcases hres : revoke now caller s with e | ⟨s', unv, ts⟩
    · simp only [vestingStep, hres]
      exact ⟨⟨hc0, hct, hact⟩, le_refl _⟩
    · simp only [vestingStep, hres]
      obtain ⟨_, hnr, _, _, hs', _⟩ := revoke_ok hres
      obtain ⟨hp, hcv⟩ := hact hnr
      subst hs'
      refine ⟨⟨hc0, ?_, ?_⟩, le_refl _⟩
      · show s.claimed_amount ≤ calculate_vested now s
        exact hcv
      · intro hs
        exact absurd rfl hs

/-- A prefix of a time-monotone trace is time-monotone. -/
theorem vtimesMono_append {t0 : Nat} {pre suff : List VestingOp}
    (h : vtimesMono t0 (pre ++ suff) = true) : vtimesMono t0 pre = true := by
  induction pre generalizing t0 with
  | nil => rfl
  | cons op rest ih =>
    simp only [List.cons_append, vtimesMono, Bool.and_eq_true,
      decide_eq_true_eq] at h ⊢
    exact ⟨h.1, ih h.2⟩

/-- In a time-monotone trace, an operation is stamped no earlier than the
last operation of any preceding segment. -/
theorem vtimesMono_mid {t0 : Nat} {pre : List VestingOp} {op : VestingOp}
    {suff : List VestingOp}
    (h : vtimesMono t0 (pre ++ op :: suff) = true) : vlastTime t0 pre ≤ op.time := by
  induction pre generalizing t0 with
  | nil =>
    simp only [List.nil_append, vtimesMono, Bool.and_eq_true,
      decide_eq_true_eq] at h
    exact h.1
  | cons p rest ih =>
    simp only [List.cons_append, vtimesMono, Bool.and_eq_true,
      decide_eq_true_eq] at h
    exact ih h.2

/-- Every time-monotone sequence of vesting entry points preserves the
vesting invariant, read at the trace's last timestamp. -/
theorem vestingRun_inv (ops : List VestingOp) (t0 : Nat) (s : VestingSchedule)
    (h : VestingInv t0 s) (hm : vtimesMono t0 ops = true) :
    VestingInv (vlastTime t0 ops) (vestingRun s ops) := by
  induction ops generalizing t0 s with
  | nil => exact h
  | cons op rest ih =>
    simp only [vtimesMono, Bool.and_eq_true, decide_eq_true_eq] at hm
    have h1 := VestingInv_weaken h hm.1
    have h2 := (vestingStep_inv s op h1).1
    simpa [vestingRun, List.foldl_cons, vlastTime] using
      ih op.time (vestingStep s op) h2 hm.2

/-! ### Behaviour of the batch-create loop. -/

/-- Loop body of `create_batch_streams` on a valid head entry: the head's
effects are issued, the head receives the next id, and the loop continues
on the tail with the incremented counter. -/
theorem batch_loop_cons_valid {now : Nat} {sender : Address}
    {p : CreateStreamParams} (hv : EntryValid now sender p)
    (count : Nat) (l : List CreateStreamParams) :
    batch_loop now sender count (p :: l) =
      (batch_entry_effects count sender p ++ (batch_loop now sender (count + 1) l).1,
       match (batch_loop now sender (count + 1) l).2 with
       | .ok (ids, final) => .ok (count :: ids, final)
       | .error e => .error e) := by
  obtain ⟨hv1, hv2, hv3, hv4⟩ := hv
  simp only [batch_loop]
  rw [if_neg hv1, if_neg (by omega), if_neg (by omega), if_neg (by omega)]

/-- Batch loop on an all-valid list: every entry's effects are issued in
input order, ids are assigned sequentially, and the final counter is the
initial one plus the batch length. -/
theorem batch_loop_all_valid (now : Nat) (sender : Address) :
    ∀ (ps : List CreateStreamParams) (count : Nat),
    (∀ p ∈ ps, EntryValid now sender p) →
    batch_loop now sender count ps =
      (batch_all_effects sender count ps,
       .ok (List.range' count ps.length, count + ps.length)) := by
  intro ps
  induction ps with
  | nil =>
    intro count h
    simp [batch_loop, batch_all_effects]
  | cons p rest ih =>
    intro count h
    have hrest : ∀ q ∈ rest, EntryValid now sender q := by
      intro q hq
      exact h q (by simp [hq])
    rw [batch_loop_cons_valid (h p (by simp)) count rest, ih (count + 1) hrest]
    simp only [batch_all_effects, List.length_cons, List.range']
    have : count + 1 + rest.length = count + (rest.length + 1) := by omega
    rw [this]

/-- Batch loop stops at the first invalid entry: the effects of the valid
entries before it have been issued, and the call returns that entry's
first failing check. -/
theorem batch_loop_stops (now : Nat) (sender : Address)
    {bad : CreateStreamParams} {e : StreamError} {rest : List CreateStreamParams}
    (hbad : entry_error now sender bad = some e) :
    ∀ (good : List CreateStreamParams) (count : Nat),
    (∀ p ∈ good, EntryValid now sender p) →
    batch_loop now sender count (good ++ bad :: rest) =
      (batch_all_effects sender count good, .error e) := by
  intro good
  induction good with
  | nil =>
    intro count _
    simp only [List.nil_append, batch_loop, batch_all_effects]
    simp only [entry_error] at hbad
    split_ifs at hbad with h1 h2 h3 h4
    · rw [if_pos h1]
      simp_all
    · rw [if_neg h1, if_pos h2]
      simp_all
    · rw [if_neg h1, if_neg h2, if_pos h3]
      simp_all
    · rw [if_neg h1, if_neg h2, if_neg h3, if_pos h4]
      simp_all
  | cons p rest' ih =>
    intro count h
    have hrest : ∀ q ∈ rest', EntryValid now sender q := by
      intro q hq
      exact h q (by simp [hq])
    rw [List.cons_append, batch_loop_cons_valid (h p (by simp)) count (rest' ++ bad :: rest),
      ih (count + 1) hrest]
    simp [batch_all_effects]

/-- Batch create on an all-valid list: the counter is written once, after
the loop, and the returned ids are in input order. -/
theorem create_batch_streams_all_valid (now count0 : Nat) (sender : Address)
    (ps : List CreateStreamParams) (h : ∀ p ∈ ps, EntryValid now sender p) :
    create_batch_streams now count0 sender ps =
      (batch_all_effects sender count0 ps ++ [.setStreamCount (count0 + ps.length)],
       .ok (List.range' count0 ps.length)) := by
  simp only [create_batch_streams]
  rw [batch_loop_all_valid now sender ps count0 h]

/-- Batch create with an invalid entry: the call fails with that entry's
first failing check, after the effects of all earlier valid entries have
been issued (and no counter write). -/
theorem create_batch_streams_invalid (now count0 : Nat) (sender : Address)
    (good : List CreateStreamParams) {bad : CreateStreamParams}
    (rest : List CreateStreamParams) {e : StreamError}
    (hgood : ∀ p ∈ good, EntryValid now sender p)
    (hbad : entry_error now sender bad = some e) :
    create_batch_streams now count0 sender (good ++ bad :: rest) =
      (batch_all_effects sender count0 good, .error e) := by
  simp only [create_batch_streams]
  rw [batch_loop_stops now sender hbad good count0 hgood]

/-! ### Further helper lemmas shared by the claim theorems. -/

/-- A successful stream claim sets the claimed amount to the accrued
amount. -/
theorem stream_claim_sets_accrued {now : Nat} {caller : Address}
    {s s' : PayrollStream} {amt : Int} {ts : List Transfer}
    (hc : 0 ≤ s.claimed_amount)
    (h : stream_claim now caller s = .ok (s', amt, ts)) :
    s'.claimed_amount = stream_accrued now s := by
  obtain ⟨_, _, _, hamt, hpos, hs', _⟩ := stream_claim_ok h
  have hmax : amt = max 0 (stream_accrued now s - s.claimed_amount) := by
    rw [hamt]
    exact calculate_claimable_eq_max now s hc
  subst hs'
  show s.claimed_amount + amt = stream_accrued now s
  rcases le_or_lt (stream_accrued now s - s.claimed_amount) 0 with hle | hlt
  · rw [max_eq_left hle] at hmax
    omega
  · rw [max_eq_right hlt.le] at hmax
    omega

/-- A successful vesting claim sets the claimed amount to the vested
amount. -/
theorem vesting_claim_sets_vested {now : Nat} {caller : Address}
    {s s' : VestingSchedule} {hist hist' : List ClaimRecord} {amt : Int}
    {ts : List Transfer}
    (h : vesting_claim now caller s hist = .ok (s', hist', amt, ts)) :
    s'.claimed_amount = calculate_vested now s := by
  obtain ⟨_, _, _, hamt, _, hs', _, _⟩ := vesting_claim_ok h
  subst hs'
  show s.claimed_amount + amt = calculate_vested now s
  omega

/-- Stream accrual depends only on the total amount and the interval. -/
theorem stream_accrued_congr {s t : PayrollStream}
    (h1 : s.total_amount = t.total_amount) (h2 : s.start_time = t.start_time)
    (h3 : s.end_time = t.end_time) (now : Nat) :
    stream_accrued now s = stream_accrued now t := by
  simp only [stream_accrued, h1, h2, h3]

/-- Vested amount depends only on the schedule's amounts and timing
fields. -/
theorem calculate_vested_congr {s t : VestingSchedule}
    (h1 : s.total_amount = t.total_amount) (h2 : s.start_time = t.start_time)
    (h3 : s.cliff_duration = t.cliff_duration) (h4 : s.cliff_amount = t.cliff_amount)
    (h5 : s.total_duration = t.total_duration) (now : Nat) :
    calculate_vested now s = calculate_vested now t := by
  simp only [calculate_vested, h1, h2, h3, h4, h5]

/-! ### Claim theorems. -/

/-- C2: for every schedule with creation-valid parameters and every query
time, the code's accrued amount equals the spec's piecewise formula for
its variant (stream: 0 at or before start, total at or after end, linear
truncating interpolation in between, recomputed from the total and the
full duration; cliff vesting: 0 before the cliff instant, total at or
after the full duration, cliff amount plus linear truncating
interpolation in between), and the derived claimable is the accrued
amount minus the claimed amount, clamped to be non-negative. -/
theorem C2_accrual_formula (now : Nat) (s : PayrollStream) (v : VestingSchedule)
    (hs : StreamParamsOK s) (hcs : 0 ≤ s.claimed_amount) :
    stream_accrued now s =
      spec_stream_accrued s.total_amount s.start_time s.end_time now ∧
    calculate_claimable now s = max 0 (stream_accrued now s - s.claimed_amount) ∧
    calculate_vested now v =
      spec_vesting_accrued v.total_amount v.cliff_amount v.start_time
        v.cliff_duration v.total_duration now ∧
    (get_progress now v).claimable_amount =
      max 0 (calculate_vested now v - v.claimed_amount) :=
  ⟨stream_accrued_eq_spec now s hs, calculate_claimable_eq_max now s hcs,
   calculate_vested_eq_spec now v, get_progress_claimable_eq_max now v⟩

/-- Witness for C2 at a concrete stream and vesting schedule, queried
mid-interval. -/
theorem C2_accrual_formula_witness :
    StreamParamsOK ⟨0, 1, 2, 3, 10, 0, 0, 10, 0, .Active, 1⟩ ∧
    (0 : Int) ≤ (⟨0, 1, 2, 3, 10, 0, 0, 10, 0, .Active, 1⟩ : PayrollStream).claimed_amount ∧
    (stream_accrued 5 ⟨0, 1, 2, 3, 10, 0, 0, 10, 0, .Active, 1⟩ =
        spec_stream_accrued 10 0 10 5 ∧
      calculate_claimable 5 ⟨0, 1, 2, 3, 10, 0, 0, 10, 0, .Active, 1⟩ =
        max 0 (stream_accrued 5 ⟨0, 1, 2, 3, 10, 0, 0, 10, 0, .Active, 1⟩ - 0) ∧
      calculate_vested 5 ⟨0, 1, 2, 3, 10, 0, 0, 2, 2, 10, 0, .Active, true⟩ =
        spec_vesting_accrued 10 2 0 2 10 5 ∧
      (get_progress 5 ⟨0, 1, 2, 3, 10, 0, 0, 2, 2, 10, 0, .Active, true⟩).claimable_amount =
        max 0 (calculate_vested 5 ⟨0, 1, 2, 3, 10, 0, 0, 2, 2, 10, 0, .Active, true⟩ - 0)) :=
  ⟨by decide, by decide,
   C2_accrual_formula 5 ⟨0, 1, 2, 3, 10, 0, 0, 10, 0, .Active, 1⟩
     ⟨0, 1, 2, 3, 10, 0, 0, 2, 2, 10, 0, .Active, true⟩ (by decide) (by decide)⟩

/-- C7 (amended): for creation-valid parameters with claimed amount 0,
the accrued amount at exactly `start_time` is 0 for streams, and for
vesting it is 0 whenever `cliff_duration > 0` but equals `cliff_amount`
when `cliff_duration = 0` (the cliff fires at start); the accrued amount
at `end_time` (stream) and at `start_time + total_duration` (vesting) is
exactly the total amount. -/
theorem C7_boundary (s : PayrollStream) (v : VestingSchedule)
    (hs : StreamParamsOK s) (hv : VestingParamsOK v) :
    stream_accrued s.start_time s = 0 ∧
    stream_accrued s.end_time s = s.total_amount ∧
    (0 < v.cliff_duration → calculate_vested v.start_time v = 0) ∧
    (v.cliff_duration = 0 → calculate_vested v.start_time v = v.cliff_amount) ∧
    calculate_vested (v.start_time + v.total_duration) v = v.total_amount := by
  obtain ⟨htot, hse⟩ := hs
  obtain ⟨hv1, hv2, hv3, hv4, hv5⟩ := hv
  refine ⟨?_, ?_, ?_, ?_, ?_⟩
  · simp only [stream_accrued, if_pos (le_refl s.start_time)]
  · rw [stream_accrued_eq_spec _ _ ⟨htot, hse⟩]
    simp only [spec_stream_accrued]
    rw [if_neg (by omega), if_pos (le_refl s.end_time)]
  · intro hcd
    rw [calculate_vested_eq_spec]
    simp only [spec_vesting_accrued]
    rw [if_pos (by omega)]
  · intro hcd
    rw [calculate_vested_eq_spec]
    simp only [spec_vesting_accrued]
    rw [if_neg (by omega), if_neg (by omega), hcd]
    simp
  · rw [calculate_vested_eq_spec]
    simp only [spec_vesting_accrued]
    rw [if_neg (by omega), if_pos (by omega)]

/-- Witness for C7 at a concrete stream (interval `[0, 10]`) and a
concrete vesting schedule (cliff at 2, full duration 10). -/
theorem C7_boundary_witness :
    StreamParamsOK ⟨0, 1, 2, 3, 10, 0, 0, 10, 0, .Active, 1⟩ ∧
    VestingParamsOK ⟨0, 1, 2, 3, 10, 0, 0, 2, 2, 10, 0, .Active, true⟩ ∧
    stream_accrued 0 ⟨0, 1, 2, 3, 10, 0, 0, 10, 0, .Active, 1⟩ = 0 ∧
    stream_accrued 10 ⟨0, 1, 2, 3, 10, 0, 0, 10, 0, .Active, 1⟩ = 10 ∧
    calculate_vested 0 ⟨0, 1, 2, 3, 10, 0, 0, 2, 2, 10, 0, .Active, true⟩ = 0 ∧
    calculate_vested 10 ⟨0, 1, 2, 3, 10, 0, 0, 2, 2, 10, 0, .Active, true⟩ = 10 :=
  ⟨by decide, by decide,
   (C7_boundary ⟨0, 1, 2, 3, 10, 0, 0, 10, 0, .Active, 1⟩
     ⟨0, 1, 2, 3, 10, 0, 0, 2, 2, 10, 0, .Active, true⟩ (by decide) (by decide)).1,
   (C7_boundary ⟨0, 1, 2, 3, 10, 0, 0, 10, 0, .Active, 1⟩
     ⟨0, 1, 2, 3, 10, 0, 0, 2, 2, 10, 0, .Active, true⟩ (by decide) (by decide)).2.1,
   (C7_boundary ⟨0, 1, 2, 3, 10, 0, 0, 10, 0, .Active, 1⟩
     ⟨0, 1, 2, 3, 10, 0, 0, 2, 2, 10, 0, .Active, true⟩ (by decide) (by decide)).2.2.1
     (by decide),
   (C7_boundary ⟨0, 1, 2, 3, 10, 0, 0, 10, 0, .Active, 1⟩
     ⟨0, 1, 2, 3, 10, 0, 0, 2, 2, 10, 0, .Active, true⟩ (by decide) (by decide)).2.2.2.2⟩

/-- C7 fails as stated: a creation-valid vesting schedule with
`cliff_duration = 0` and a positive `cliff_amount` has accrued amount
`cliff_amount ≠ 0` at exactly `start_time`. -/
theorem C7_counterexample :
    VestingParamsOK ⟨0, 1, 2, 3, 100, 0, 1000, 0, 50, 100, 0, .Active, true⟩ ∧
    (⟨0, 1, 2, 3, 100, 0, 1000, 0, 50, 100, 0, .Active, true⟩ : VestingSchedule).claimed_amount = 0 ∧
    calculate_vested 1000 ⟨0, 1, 2, 3, 100, 0, 1000, 0, 50, 100, 0, .Active, true⟩ = 50 ∧
    (50 : Int) ≠ 0 := by
  refine ⟨by decide, rfl, by decide, by decide⟩

/-- C8: for fixed creation-valid schedule parameters the accrued amount
is monotone in the query time and never exceeds the total amount, for
both the stream and the vesting variant. -/
theorem C8_monotone_bounded (s : PayrollStream) (v : VestingSchedule)
    {t1 t2 : Nat} (hs : StreamParamsOK s) (hv : VestingParamsOK v)
    (h12 : t1 ≤ t2) :
    stream_accrued t1 s ≤ stream_accrued t2 s ∧
    stream_accrued t1 s ≤ s.total_amount ∧
    calculate_vested t1 v ≤ calculate_vested t2 v ∧
    calculate_vested t1 v ≤ v.total_amount :=
  ⟨stream_accrued_mono s hs h12, stream_accrued_le_total t1 s hs.1.le,
   calculate_vested_mono v hv h12, calculate_vested_le_total t1 v hv⟩

/-- Witness for C8 at a concrete stream and vesting schedule and the
times 4 ≤ 7. -/
theorem C8_monotone_bounded_witness :
    StreamParamsOK ⟨0, 1, 2, 3, 10, 0, 0, 10, 0, .Active, 1⟩ ∧
    VestingParamsOK ⟨0, 1, 2, 3, 10, 0, 0, 2, 2, 10, 0, .Active, true⟩ ∧
    (4 ≤ 7) ∧
    (stream_accrued 4 ⟨0, 1, 2, 3, 10, 0, 0, 10, 0, .Active, 1⟩ ≤
        stream_accrued 7 ⟨0, 1, 2, 3, 10, 0, 0, 10, 0, .Active, 1⟩ ∧
      stream_accrued 4 ⟨0, 1, 2, 3, 10, 0, 0, 10, 0, .Active, 1⟩ ≤ 10 ∧
      calculate_vested 4 ⟨0, 1, 2, 3, 10, 0, 0, 2, 2, 10, 0, .Active, true⟩ ≤
        calculate_vested 7 ⟨0, 1, 2, 3, 10, 0, 0, 2, 2, 10, 0, .Active, true⟩ ∧
      calculate_vested 4 ⟨0, 1, 2, 3, 10, 0, 0, 2, 2, 10, 0, .Active, true⟩ ≤ 10) :=
  ⟨by decide, by decide, by decide,
   C8_monotone_bounded ⟨0, 1, 2, 3, 10, 0, 0, 10, 0, .Active, 1⟩
     ⟨0, 1, 2, 3, 10, 0, 0, 2, 2, 10, 0, .Active, true⟩ (by decide) (by decide)
     (by decide)⟩

/-- C10: vesting schedule creation performs no check of `start_time`
against the ledger clock — `create_schedule` reads no timestamp at all
and succeeds for every otherwise-valid parameter set even when
`start_time` is strictly in the past (and its error enum has no
`InvalidStartTime` variant), whereas `create_stream` rejects any
`start_time` earlier than the current ledger timestamp with
`InvalidStartTime`. -/
theorem C10_no_start_time_check
    (now count : Nat) (grantor beneficiary tokenV : Address) (total : Int)
    (start cliffDur : Nat) (cliffAmt : Int) (totalDur : Nat) (lab : Nat)
    (rev : Bool) (sender recipient tokenS : Address) (totalS : Int)
    (startS endS : Nat)
    (hv1 : 0 < total) (hv2 : 0 < totalDur) (hv3 : cliffDur < totalDur)
    (hv4 : 0 ≤ cliffAmt) (hv5 : cliffAmt ≤ total)
    (_hpast : start < now)
    (hs1 : sender ≠ recipient) (hs2 : 0 < totalS) (hs3 : startS < endS)
    (hs4 : startS < now) :
    create_schedule count grantor beneficiary tokenV total start cliffDur
        cliffAmt totalDur lab rev =
      .ok ({ id := count, grantor := grantor, beneficiary := beneficiary,
             token := tokenV, total_amount := total, claimed_amount := 0,
             start_time := start, cliff_duration := cliffDur,
             cliff_amount := cliffAmt, total_duration := totalDur,
             label := lab, status := .Active, revocable := rev }, []) ∧
    create_stream now count sender recipient tokenS totalS startS endS =
      .error .InvalidStartTime := by
  constructor
  · simp only [create_schedule]
    rw [if_neg (by omega), if_neg (by omega), if_neg (by omega),
      if_neg (by omega)]
  · simp only [create_stream]
    rw [if_neg hs1, if_neg (by omega), if_neg (by omega), if_pos hs4]

/-- Witness for C10: a vesting schedule created at ledger time 100 with
`start_time = 5` in the past succeeds, while the analogous stream
creation fails with `InvalidStartTime`. -/
theorem C10_no_start_time_check_witness :
    (0 : Int) < 10 ∧ 0 < 10 ∧ 2 < 10 ∧ (0 : Int) ≤ 2 ∧ (2 : Int) ≤ 10 ∧
    5 < 100 ∧ (1 : Nat) ≠ 2 ∧ (0 : Int) < 10 ∧ 5 < 10 ∧ 5 < 100 ∧
    (create_schedule 0 1 2 3 10 5 2 2 10 0 true =
        .ok (⟨0, 1, 2, 3, 10, 0, 5, 2, 2, 10, 0, .Active, true⟩, []) ∧
      create_stream 100 0 1 2 3 10 5 10 = .error .InvalidStartTime) :=
  ⟨by decide, by decide, by decide, by decide, by decide, by decide, by decide,
   by decide, by decide, by decide,
   C10_no_start_time_check 100 0 1 2 3 10 5 2 2 10 0 true 1 2 3 10 5 10
     (by decide) (by decide) (by decide) (by decide) (by decide) (by decide)
     (by decide) (by decide) (by decide) (by decide)⟩

/-- C5 fails on the code: the vesting `claim` entry point never calls
`add_claim_record`, so a successful claim leaves the claim-history cell
unchanged (here: still empty after a successful claim of 50000 in the
repository's own `test_claim_history` scenario), while the spec and that
test expect one appended record per successful claim. -/
theorem C5_claim_history_not_appended :
    vesting_claim 63073000 2
        ⟨0, 1, 2, 3, 100000, 0, 1000, 31536000, 25000, 126144000, 0, .Active, true⟩ [] =
      .ok (⟨0, 1, 2, 3, 100000, 50000, 1000, 31536000, 25000, 126144000, 0,
            .Active, true⟩, [], 50000, []) ∧
    ([] : List ClaimRecord).length = 0 ∧
    (add_claim_record [] 50000 63073000).length = 1 := by
  refine ⟨rfl, rfl, rfl⟩

/-- C1: stream cancellation by the sender of an Active stream settles
exactly as the claim states — it transfers the settleable amount
(accrued minus claimed) to the recipient when positive, the refund
(total minus claimed minus settleable) to the sender when positive, sets
the status to Cancelled, and settleable + refund + claimed equals the
total at the moment of the call.  The vesting side of the claim fails on
the code: at a concrete revocable schedule half-way through vesting,
`revoke` succeeds and computes a positive settleable (5000) and refund
(5000) yet instructs no transfer at all (both transfers are TODO stubs
in the source). -/
theorem C1_termination_settlement (now : Nat) (caller : Address)
    (s : PayrollStream)
    (hsend : s.sender = caller) (hst : s.status = .Active)
    (hc0 : 0 ≤ s.claimed_amount)
    (hacc : s.claimed_amount ≤ stream_accrued now s) :
    cancel_stream now caller s =
      .ok ({ s with status := .Cancelled },
        (if 0 < calculate_claimable now s then
           [{ token := s.token, source := .contract, dest := .ext s.recipient,
              amount := calculate_claimable now s }]
         else []) ++
        (if 0 < s.total_amount - s.claimed_amount - calculate_claimable now s then
           [{ token := s.token, source := .contract, dest := .ext caller,
              amount := s.total_amount - s.claimed_amount
                - calculate_claimable now s }]
         else [])) ∧
    calculate_claimable now s = stream_accrued now s - s.claimed_amount ∧
    calculate_claimable now s +
        (s.total_amount - s.claimed_amount - calculate_claimable now s) +
        s.claimed_amount = s.total_amount ∧
    revoke 5 1 ⟨0, 1, 2, 3, 10000, 0, 0, 0, 0, 10, 0, .Active, true⟩ =
      .ok (⟨0, 1, 2, 3, 5000, 0, 0, 0, 0, 10, 0, .Revoked, true⟩, 5000, []) ∧
    calculate_vested 5 ⟨0, 1, 2, 3, 10000, 0, 0, 0, 0, 10, 0, .Active, true⟩ -
        (⟨0, 1, 2, 3, 10000, 0, 0, 0, 0, 10, 0, .Active, true⟩ :
          VestingSchedule).claimed_amount = 5000 := by
  have hmax := calculate_claimable_eq_max now s hc0
  refine ⟨?_, ?_, by omega, rfl, by decide⟩
  · simp only [cancel_stream]
    rw [if_neg (by simp [hsend]), if_neg (by simp [hst]), if_neg (by simp [hst])]
  · rw [hmax, max_eq_right (by omega)]

/-- Witness for C1 at a concrete stream cancelled half-way: recipient is
owed 5, sender refunded 5, and 5 + 5 + 0 = 10. -/
theorem C1_termination_settlement_witness :
    (⟨0, 1, 2, 3, 10, 0, 0, 10, 0, .Active, 1⟩ : PayrollStream).sender = 1 ∧
    (⟨0, 1, 2, 3, 10, 0, 0, 10, 0, .Active, 1⟩ : PayrollStream).status = .Active ∧
    (0 : Int) ≤ (⟨0, 1, 2, 3, 10, 0, 0, 10, 0, .Active, 1⟩ : PayrollStream).claimed_amount ∧
    (⟨0, 1, 2, 3, 10, 0, 0, 10, 0, .Active, 1⟩ : PayrollStream).claimed_amount ≤
      stream_accrued 5 ⟨0, 1, 2, 3, 10, 0, 0, 10, 0, .Active, 1⟩ ∧
    (cancel_stream 5 1 ⟨0, 1, 2, 3, 10, 0, 0, 10, 0, .Active, 1⟩ =
        .ok (⟨0, 1, 2, 3, 10, 0, 0, 10, 0, .Cancelled, 1⟩,
          [{ token := 3, source := .contract, dest := .ext 2, amount := 5 },
           { token := 3, source := .contract, dest := .ext 1, amount := 5 }]) ∧
      calculate_claimable 5 ⟨0, 1, 2, 3, 10, 0, 0, 10, 0, .Active, 1⟩ = 5 ∧
      (5 : Int) + 5 + 0 = 10 ∧
      revoke 5 1 ⟨0, 1, 2, 3, 10000, 0, 0, 0, 0, 10, 0, .Active, true⟩ =
        .ok (⟨0, 1, 2, 3, 5000, 0, 0, 0, 0, 10, 0, .Revoked, true⟩, 5000, []) ∧
      calculate_vested 5 ⟨0, 1, 2, 3, 10000, 0, 0, 0, 0, 10, 0, .Active, true⟩ -
        (⟨0, 1, 2, 3, 10000, 0, 0, 0, 0, 10, 0, .Active, true⟩ :
          VestingSchedule).claimed_amount = 5000) :=
  ⟨rfl, rfl, by decide, by decide,
   C1_termination_settlement 5 1 ⟨0, 1, 2, 3, 10, 0, 0, 10, 0, .Active, 1⟩
     rfl rfl (by decide) (by decide)⟩

/-- C4 fails as stated: a FullyClaimed (terminal) revocable vesting
schedule can still be revoked — `revoke` succeeds and moves the status
from one terminal state (FullyClaimed) to another (Revoked). -/
theorem C4_counterexample :
    (⟨0, 1, 2, 3, 100, 100, 0, 1, 0, 10, 0, .FullyClaimed, true⟩ :
        VestingSchedule).status = .FullyClaimed ∧
    revoke 20 1 ⟨0, 1, 2, 3, 100, 100, 0, 1, 0, 10, 0, .FullyClaimed, true⟩ =
      .ok (⟨0, 1, 2, 3, 100, 100, 0, 1, 0, 10, 0, .Revoked, true⟩, 0, []) ∧
    (⟨0, 1, 2, 3, 100, 100, 0, 1, 0, 10, 0, .Revoked, true⟩ :
        VestingSchedule).status = .Revoked :=
  ⟨rfl, rfl, rfl⟩

/-- C4 (amended): stream claim and cancel fail without change on a
terminal (Cancelled or Completed) stream; vesting claim fails without
change on a terminal (Revoked or FullyClaimed) schedule; vesting revoke
fails on a Revoked schedule, but on a FullyClaimed revocable schedule it
succeeds and transitions FullyClaimed → Revoked.  Consequently Cancelled,
Completed and Revoked absorb under every entry point, while FullyClaimed
either persists or moves to Revoked. -/
theorem C4_terminal_transitions (now : Nat) (caller : Address)
    (s : PayrollStream) (v : VestingSchedule) (op : StreamOp)
    (vop : VestingOp) :
    (s.status = .Cancelled ∨ s.status = .Completed →
       (stream_claim now caller s).toOption = none ∧
       (cancel_stream now caller s).toOption = none) ∧
    (v.status = .Revoked ∨ v.status = .FullyClaimed →
       (vesting_claim now caller v []).toOption = none) ∧
    (v.status = .Revoked → (revoke now caller v).toOption = none) ∧
    (v.status = .FullyClaimed → v.revocable = true → v.grantor = caller →
       revoke now caller v =
         .ok ({ v with status := .Revoked,
                       total_amount := calculate_vested now v },
           v.total_amount - calculate_vested now v, [])) ∧
    (s.status = .Cancelled → (streamStep s op).status = .Cancelled) ∧
    (s.status = .Completed → (streamStep s op).status = .Completed) ∧
    (v.status = .Revoked → (vestingStep v vop).status = .Revoked) ∧
    (v.status = .FullyClaimed →
       (vestingStep v vop).status = .FullyClaimed ∨
       (vestingStep v vop).status = .Revoked) := by
  refine ⟨?_, ?_, ?_, ?_, ?_, ?_, ?_, ?_⟩
  · intro hterm
    constructor
    · simp only [stream_claim]
      split_ifs <;>
        first
          | rfl
          | (exfalso; rcases hterm with h | h <;> simp_all)
    · simp only [cancel_stream]
      split_ifs <;>
        first
          | rfl
          | (exfalso; rcases hterm with h | h <;> simp_all)
  · intro hterm
    simp only [vesting_claim]
    split_ifs <;>
      first
        | rfl
        | (exfalso; rcases hterm with h | h <;> simp_all)
  · intro hrev
    simp only [revoke]
    split_ifs <;> rfl
  · intro hfc hrevoc hgr
    simp only [revoke]
    rw [if_neg (by simp [hgr]), if_neg (by simp [hfc]), if_neg (by simp [hrevoc])]
  · intro hst
    cases op with
    | claimOp n c =>
      rcases hres : stream_claim n c s with e | ⟨s', amt, ts⟩
      · simp [streamStep, hres, hst]
      · obtain ⟨_, h2, _, _, _, _, _⟩ := stream_claim_ok hres
        exact absurd hst h2
    | cancelOp n c =>
      rcases hres : cancel_stream n c s with e | ⟨s', ts⟩
      · simp [streamStep, hres, hst]
      · obtain ⟨_, h2, _, _, _⟩ := cancel_stream_ok hres
        exact absurd hst h2
  · intro hst
    cases op with
    | claimOp n c =>
      rcases hres : stream_claim n c s with e | ⟨s', amt, ts⟩
      · simp [streamStep, hres, hst]
      · obtain ⟨_, _, h3, _, _, _, _⟩ := stream_claim_ok hres
        exact absurd hst h3
    | cancelOp n c =>
      rcases hres : cancel_stream n c s with e | ⟨s', ts⟩
      · simp [streamStep, hres, hst]
      · obtain ⟨_, _, h3, _, _⟩ := cancel_stream_ok hres
        exact absurd hst h3
  · intro hrev
    cases vop with
    | claimOp n c =>
      rcases hres : vesting_claim n c v [] with e | ⟨v', hist', amt, ts⟩
      · simp [vestingStep, hres, hrev]
      · obtain ⟨_, h2, _, _, _, _, _, _⟩ := vesting_claim_ok hres
        exact absurd hrev h2
    | revokeOp n c =>
      rcases hres : revoke n c v with e | ⟨v', unv, ts⟩
      · simp [vestingStep, hres, hrev]
      · obtain ⟨_, h2, _, _, _, _⟩ := revoke_ok hres
        exact absurd hrev h2
  · intro hfc
    cases vop with
    | claimOp n c =>
      rcases hres : vesting_claim n c v [] with e | ⟨v', hist', amt, ts⟩
      · left
        simp [vestingStep, hres, hfc]
      · obtain ⟨_, _, h3, _, _, _, _, _⟩ := vesting_claim_ok hres
        exact absurd hfc h3
    | revokeOp n c =>
      rcases hres : revoke n c v with e | ⟨v', unv, ts⟩
      · left
        simp [vestingStep, hres, hfc]
      · right
        obtain ⟨_, _, _, _, hs', _⟩ := revoke_ok hres
        subst hs'
        simp [vestingStep, hres]

/-- Witness for C4 at concrete terminal schedules: a Cancelled stream, a
Revoked schedule, and a FullyClaimed revocable schedule that revoke moves
to Revoked. -/
theorem C4_terminal_transitions_witness :
    (stream_claim 5 2 ⟨0, 1, 2, 3, 10, 5, 0, 10, 0, .Cancelled, 1⟩).toOption = none ∧
    (cancel_stream 5 2 ⟨0, 1, 2, 3, 10, 5, 0, 10, 0, .Cancelled, 1⟩).toOption = none ∧
    (vesting_claim 5 2 ⟨0, 1, 2, 3, 10, 5, 0, 2, 2, 10, 0, .Revoked, true⟩ []).toOption = none ∧
    (revoke 5 2 ⟨0, 1, 2, 3, 10, 5, 0, 2, 2, 10, 0, .Revoked, true⟩).toOption = none ∧
    revoke 20 1 ⟨0, 1, 2, 3, 100, 100, 0, 1, 0, 10, 0, .FullyClaimed, true⟩ =
      .ok (⟨0, 1, 2, 3, 100, 100, 0, 1, 0, 10, 0, .Revoked, true⟩, 0, []) ∧
    (streamStep ⟨0, 1, 2, 3, 10, 5, 0, 10, 0, .Cancelled, 1⟩
        (StreamOp.claimOp 5 2)).status = .Cancelled ∧
    (vestingStep ⟨0, 1, 2, 3, 10, 5, 0, 2, 2, 10, 0, .Revoked, true⟩
        (VestingOp.revokeOp 20 1)).status = .Revoked ∧
    ((vestingStep ⟨0, 1, 2, 3, 100, 100, 0, 1, 0, 10, 0, .FullyClaimed, true⟩
         (VestingOp.revokeOp 20 1)).status = .FullyClaimed ∨
      (vestingStep ⟨0, 1, 2, 3, 100, 100, 0, 1, 0, 10, 0, .FullyClaimed, true⟩
         (VestingOp.revokeOp 20 1)).status = .Revoked) :=
  ⟨((C4_terminal_transitions 5 2 ⟨0, 1, 2, 3, 10, 5, 0, 10, 0, .Cancelled, 1⟩
      ⟨0, 1, 2, 3, 10, 5, 0, 2, 2, 10, 0, .Revoked, true⟩
      (StreamOp.claimOp 5 2) (VestingOp.revokeOp 20 1)).1 (Or.inl rfl)).1,
   ((C4_terminal_transitions 5 2 ⟨0, 1, 2, 3, 10, 5, 0, 10, 0, .Cancelled, 1⟩
      ⟨0, 1, 2, 3, 10, 5, 0, 2, 2, 10, 0, .Revoked, true⟩
      (StreamOp.claimOp 5 2) (VestingOp.revokeOp 20 1)).1 (Or.inl rfl)).2,
   (C4_terminal_transitions 5 2 ⟨0, 1, 2, 3, 10, 5, 0, 10, 0, .Cancelled, 1⟩
      ⟨0, 1, 2, 3, 10, 5, 0, 2, 2, 10, 0, .Revoked, true⟩
      (StreamOp.claimOp 5 2) (VestingOp.revokeOp 20 1)).2.1 (Or.inl rfl),
   (C4_terminal_transitions 5 2 ⟨0, 1, 2, 3, 10, 5, 0, 10, 0, .Cancelled, 1⟩
      ⟨0, 1, 2, 3, 10, 5, 0, 2, 2, 10, 0, .Revoked, true⟩
      (StreamOp.claimOp 5 2) (VestingOp.revokeOp 20 1)).2.2.1 rfl,
   (C4_terminal_transitions 20 1 ⟨0, 1, 2, 3, 10, 5, 0, 10, 0, .Cancelled, 1⟩
      ⟨0, 1, 2, 3, 100, 100, 0, 1, 0, 10, 0, .FullyClaimed, true⟩
      (StreamOp.claimOp 5 2) (VestingOp.revokeOp 20 1)).2.2.2.1 rfl rfl rfl,
   (C4_terminal_transitions 5 2 ⟨0, 1, 2, 3, 10, 5, 0, 10, 0, .Cancelled, 1⟩
      ⟨0, 1, 2, 3, 10, 5, 0, 2, 2, 10, 0, .Revoked, true⟩
      (StreamOp.claimOp 5 2) (VestingOp.revokeOp 20 1)).2.2.2.2.1 rfl,
   (C4_terminal_transitions 5 2 ⟨0, 1, 2, 3, 10, 5, 0, 10, 0, .Cancelled, 1⟩
      ⟨0, 1, 2, 3, 10, 5, 0, 2, 2, 10, 0, .Revoked, true⟩
      (StreamOp.claimOp 5 2) (VestingOp.revokeOp 20 1)).2.2.2.2.2.2.1 rfl,
   (C4_terminal_transitions 20 1 ⟨0, 1, 2, 3, 10, 5, 0, 10, 0, .Cancelled, 1⟩
      ⟨0, 1, 2, 3, 100, 100, 0, 1, 0, 10, 0, .FullyClaimed, true⟩
      (StreamOp.claimOp 5 2) (VestingOp.revokeOp 20 1)).2.2.2.2.2.2.2 rfl⟩

/-- C9 fails as stated: when the first claim completes the schedule
(claimed reaches total), the second claim at the same instant fails with
`StreamCompleted`, not `NothingToClaim` — here a stream claimed at its
end time. -/
theorem C9_counterexample :
    (⟨0, 1, 2, 3, 100, 0, 0, 10, 0, .Active, 10⟩ : PayrollStream).status = .Active ∧
    stream_claim 10 2 ⟨0, 1, 2, 3, 100, 0, 0, 10, 0, .Active, 10⟩ =
      .ok (⟨0, 1, 2, 3, 100, 100, 0, 10, 10, .Completed, 10⟩, 100,
        [{ token := 3, source := .contract, dest := .ext 2, amount := 100 }]) ∧
    stream_claim 10 2 ⟨0, 1, 2, 3, 100, 100, 0, 10, 10, .Completed, 10⟩ =
      .error .StreamCompleted ∧
    StreamError.StreamCompleted ≠ StreamError.NothingToClaim :=
  ⟨rfl, rfl, rfl, by decide⟩

/-- C9 (amended): after a successful claim at time `now`, a second claim
at the same `now` fails with `NothingToClaim` when the first claim left
the schedule non-terminal, and with `StreamCompleted` /
`AlreadyFullyClaimed` when the first claim completed it; and, once the
caller and status checks pass, a claim fails with `NothingToClaim`
exactly when the accrued amount minus the claimed amount is ≤ 0 (claiming
zero is rejected, not silently accepted). -/
theorem C9_no_double_payment
    (now : Nat) (caller vcaller : Address)
    (s s' : PayrollStream) (amt : Int) (ts : List Transfer)
    (v v' : VestingSchedule) (hist hist' : List ClaimRecord) (vamt : Int)
    (vts : List Transfer) (u : PayrollStream) (w : VestingSchedule)
    (whist : List ClaimRecord)
    (hc : 0 ≤ s.claimed_amount)
    (h1 : stream_claim now caller s = .ok (s', amt, ts))
    (h2 : vesting_claim now vcaller v hist = .ok (v', hist', vamt, vts))
    (hu0 : 0 ≤ u.claimed_amount) :
    (s'.status ≠ .Completed → stream_claim now caller s' = .error .NothingToClaim) ∧
    (s'.status = .Completed → stream_claim now caller s' = .error .StreamCompleted) ∧
    (v'.status ≠ .FullyClaimed →
       vesting_claim now vcaller v' hist' = .error .NothingToClaim) ∧
    (v'.status = .FullyClaimed →
       vesting_claim now vcaller v' hist' = .error .AlreadyFullyClaimed) ∧
    (u.recipient = caller → u.status ≠ .Cancelled → u.status ≠ .Completed →
       (stream_claim now caller u = .error .NothingToClaim ↔
         stream_accrued now u - u.claimed_amount ≤ 0)) ∧
    (w.beneficiary = vcaller → w.status ≠ .Revoked → w.status ≠ .FullyClaimed →
       (vesting_claim now vcaller w whist = .error .NothingToClaim ↔
         calculate_vested now w - w.claimed_amount ≤ 0)) := by
  obtain ⟨hrec, hnc, hncp, hamt, hpos, hs'eq, htseq⟩ := stream_claim_ok h1
  have hset := stream_claim_sets_accrued hc h1
  have hcl' : s'.claimed_amount = s.claimed_amount + amt := by rw [hs'eq]
  have hrec' : s'.recipient = s.recipient := by rw [hs'eq]
  have htot' : s'.total_amount = s.total_amount := by rw [hs'eq]
  have hstart' : s'.start_time = s.start_time := by rw [hs'eq]
  have hend' : s'.end_time = s.end_time := by rw [hs'eq]
  have hacc_eq : stream_accrued now s' = stream_accrued now s :=
    stream_accrued_congr htot' hstart' hend' now
  have hzero : calculate_claimable now s' = 0 := by
    have hc2 : (0 : Int) ≤ s'.claimed_amount := by omega
    rw [calculate_claimable_eq_max now s' hc2, hacc_eq, hset]
    simp
  obtain ⟨hben, hnr, hnfc, hvamt, hvpos, hv'eq, hh', hvts⟩ := vesting_claim_ok h2
  have hvset := vesting_claim_sets_vested h2
  have hben' : v'.beneficiary = v.beneficiary := by rw [hv'eq]
  have hvtot' : v'.total_amount = v.total_amount := by rw [hv'eq]
  have hvst' : v'.start_time = v.start_time := by rw [hv'eq]
  have hvcd' : v'.cliff_duration = v.cliff_duration := by rw [hv'eq]
  have hvca' : v'.cliff_amount = v.cliff_amount := by rw [hv'eq]
  have hvtd' : v'.total_duration = v.total_duration := by rw [hv'eq]
  have hves_eq : calculate_vested now v' = calculate_vested now v :=
    calculate_vested_congr hvtot' hvst' hvcd' hvca' hvtd' now
  refine ⟨?_, ?_, ?_, ?_, ?_, ?_⟩
  · intro hncomp
    have hstat : s'.status = s.status := by
      by_cases hcond : s.total_amount ≤ s.claimed_amount + amt
      · exfalso
        apply hncomp
        rw [hs'eq]
        simp [hcond]
      · rw [hs'eq]
        simp [hcond]
    simp only [stream_claim]
    rw [if_neg (by simp [hrec', hrec]), if_neg (by simp [hstat, hnc]),
      if_neg hncomp, if_pos (by rw [hzero])]
  · intro hcomp
    simp only [stream_claim]
    rw [if_neg (by simp [hrec', hrec]), if_neg (by rw [hcomp]; decide),
      if_pos hcomp]
  · intro hnfc'
    have hstat : v'.status = v.status := by
      by_cases hcond : v.total_amount ≤ v.claimed_amount + vamt
      · exfalso
        apply hnfc'
        rw [hv'eq]
        simp [hcond]
      · rw [hv'eq]
        simp [hcond]
    simp only [vesting_claim]
    rw [if_neg (by simp [hben', hben]), if_neg (by simp [hstat, hnr]),
      if_neg hnfc', if_pos (by rw [hves_eq, hvset]; omega)]
  · intro hfc
    simp only [vesting_claim]
    rw [if_neg (by simp [hben', hben]), if_neg (by rw [hfc]; decide),
      if_pos hfc]
  · intro hurec hunc hunco
    simp only [stream_claim]
    rw [if_neg (by simp [hurec]), if_neg hunc, if_neg hunco,
      calculate_claimable_eq_max now u hu0]
    constructor
    · intro hEq
      by_cases hle : max 0 (stream_accrued now u - u.claimed_amount) ≤ 0
      · exact (max_le_iff.mp hle).2
      · rw [if_neg hle] at hEq
        exact absurd hEq (by simp)
    · intro hle
      rw [if_pos (max_le le_rfl hle)]
  · intro hwben hwnr hwnfc
    simp only [vesting_claim]
    rw [if_neg (by simp [hwben]), if_neg hwnr, if_neg hwnfc]
    constructor
    · intro hEq
      by_cases hle : calculate_vested now w - w.claimed_amount ≤ 0
      · exact hle
      · rw [if_neg hle] at hEq
        exact absurd hEq (by simp)
    · intro hle
      rw [if_pos hle]

/-- Witness for C9: a stream and a vesting schedule claimed half-way,
then claimed again at the same instant. -/
theorem C9_no_double_payment_witness :
    (0 : Int) ≤ (⟨0, 1, 2, 3, 10, 0, 0, 10, 0, .Active, 1⟩ : PayrollStream).claimed_amount ∧
    stream_claim 5 2 ⟨0, 1, 2, 3, 10, 0, 0, 10, 0, .Active, 1⟩ =
      .ok (⟨0, 1, 2, 3, 10, 5, 0, 10, 5, .Active, 1⟩, 5,
        [{ token := 3, source := .contract, dest := .ext 2, amount := 5 }]) ∧
    vesting_claim 5 2 ⟨0, 1, 2, 3, 10, 0, 0, 2, 2, 10, 0, .Active, true⟩ [] =
      .ok (⟨0, 1, 2, 3, 10, 5, 0, 2, 2, 10, 0, .Active, true⟩, [], 5, []) ∧
    stream_claim 5 2 ⟨0, 1, 2, 3, 10, 5, 0, 10, 5, .Active, 1⟩ =
      .error .NothingToClaim ∧
    vesting_claim 5 2 ⟨0, 1, 2, 3, 10, 5, 0, 2, 2, 10, 0, .Active, true⟩ [] =
      .error .NothingToClaim ∧
    (stream_claim 5 2 ⟨0, 1, 2, 3, 10, 0, 0, 10, 0, .Active, 1⟩ =
        .error .NothingToClaim ↔
      stream_accrued 5 ⟨0, 1, 2, 3, 10, 0, 0, 10, 0, .Active, 1⟩ -
        (⟨0, 1, 2, 3, 10, 0, 0, 10, 0, .Active, 1⟩ : PayrollStream).claimed_amount ≤ 0) ∧
    (vesting_claim 5 2 ⟨0, 1, 2, 3, 10, 0, 0, 2, 2, 10, 0, .Active, true⟩ [] =
        .error .NothingToClaim ↔
      calculate_vested 5 ⟨0, 1, 2, 3, 10, 0, 0, 2, 2, 10, 0, .Active, true⟩ -
        (⟨0, 1, 2, 3, 10, 0, 0, 2, 2, 10, 0, .Active, true⟩ :
          VestingSchedule).claimed_amount ≤ 0) :=
  ⟨by decide, rfl, rfl,
   (C9_no_double_payment 5 2 2 ⟨0, 1, 2, 3, 10, 0, 0, 10, 0, .Active, 1⟩
      ⟨0, 1, 2, 3, 10, 5, 0, 10, 5, .Active, 1⟩ 5
      [{ token := 3, source := .contract, dest := .ext 2, amount := 5 }]
      ⟨0, 1, 2, 3, 10, 0, 0, 2, 2, 10, 0, .Active, true⟩
      ⟨0, 1, 2, 3, 10, 5, 0, 2, 2, 10, 0, .Active, true⟩ [] [] 5 []
      ⟨0, 1, 2, 3, 10, 0, 0, 10, 0, .Active, 1⟩
      ⟨0, 1, 2, 3, 10, 0, 0, 2, 2, 10, 0, .Active, true⟩ []
      (by decide) rfl rfl (by decide)).1 (by decide),
   (C9_no_double_payment 5 2 2 ⟨0, 1, 2, 3, 10, 0, 0, 10, 0, .Active, 1⟩
      ⟨0, 1, 2, 3, 10, 5, 0, 10, 5, .Active, 1⟩ 5
      [{ token := 3, source := .contract, dest := .ext 2, amount := 5 }]
      ⟨0, 1, 2, 3, 10, 0, 0, 2, 2, 10, 0, .Active, true⟩
      ⟨0, 1, 2, 3, 10, 5, 0, 2, 2, 10, 0, .Active, true⟩ [] [] 5 []
      ⟨0, 1, 2, 3, 10, 0, 0, 10, 0, .Active, 1⟩
      ⟨0, 1, 2, 3, 10, 0, 0, 2, 2, 10, 0, .Active, true⟩ []
      (by decide) rfl rfl (by decide)).2.2.1 (by decide),
   (C9_no_double_payment 5 2 2 ⟨0, 1, 2, 3, 10, 0, 0, 10, 0, .Active, 1⟩
      ⟨0, 1, 2, 3, 10, 5, 0, 10, 5, .Active, 1⟩ 5
      [{ token := 3, source := .contract, dest := .ext 2, amount := 5 }]
      ⟨0, 1, 2, 3, 10, 0, 0, 2, 2, 10, 0, .Active, true⟩
      ⟨0, 1, 2, 3, 10, 5, 0, 2, 2, 10, 0, .Active, true⟩ [] [] 5 []
      ⟨0, 1, 2, 3, 10, 0, 0, 10, 0, .Active, 1⟩
      ⟨0, 1, 2, 3, 10, 0, 0, 2, 2, 10, 0, .Active, true⟩ []
      (by decide) rfl rfl (by decide)).2.2.2.2.1 rfl (by decide) (by decide),
   (C9_no_double_payment 5 2 2 ⟨0, 1, 2, 3, 10, 0, 0, 10, 0, .Active, 1⟩
      ⟨0, 1, 2, 3, 10, 5, 0, 10, 5, .Active, 1⟩ 5
      [{ token := 3, source := .contract, dest := .ext 2, amount := 5 }]
      ⟨0, 1, 2, 3, 10, 0, 0, 2, 2, 10, 0, .Active, true⟩
      ⟨0, 1, 2, 3, 10, 5, 0, 2, 2, 10, 0, .Active, true⟩ [] [] 5 []
      ⟨0, 1, 2, 3, 10, 0, 0, 10, 0, .Active, 1⟩
      ⟨0, 1, 2, 3, 10, 0, 0, 2, 2, 10, 0, .Active, true⟩ []
      (by decide) rfl rfl (by decide)).2.2.2.2.2 rfl (by decide) (by decide)⟩

/-- C6 fails as stated: in a two-entry batch whose second entry is
invalid (zero amount), the call fails, yet the first entry's escrow
transfer and record write were already issued before the second entry was
validated — validation does not all happen before the first mutation or
transfer instruction. -/
theorem C6_counterexample :
    (create_batch_streams 0 0 7
        [⟨1, 9, 100, 10, 20⟩, ⟨2, 9, 0, 10, 20⟩]).2 = .error .InvalidAmount ∧
    BatchEffect.transfer
        { token := 9, source := .ext 7, dest := .contract, amount := 100 } ∈
      (create_batch_streams 0 0 7 [⟨1, 9, 100, 10, 20⟩, ⟨2, 9, 0, 10, 20⟩]).1 ∧
    BatchEffect.setStream 0 ⟨0, 7, 1, 9, 100, 0, 10, 20, 10, .Active, 10⟩ ∈
      (create_batch_streams 0 0 7 [⟨1, 9, 100, 10, 20⟩, ⟨2, 9, 0, 10, 20⟩]).1 := by
  refine ⟨rfl, by decide, by decide⟩

/-- C6 (amended): validation is interleaved per entry, each entry being
validated immediately before its own effects are issued.  On an all-valid
batch the call succeeds, every entry's effects are issued in input order,
the returned ids are sequential in input order and the counter is written
once at the end; on a batch containing an invalid entry the call fails
with that entry's first failing check after the effects of all earlier
(valid) entries have already been issued — the all-or-nothing outcome is
delivered by the environment rolling back a failed call, not by
validating everything first. -/
theorem C6_batch_atomic_per_entry (now count0 : Nat) (sender : Address)
    (ps good rest : List CreateStreamParams) (bad : CreateStreamParams)
    (e : StreamError)
    (hval : ∀ p ∈ ps, EntryValid now sender p)
    (hgood : ∀ p ∈ good, EntryValid now sender p)
    (hbad : entry_error now sender bad = some e) :
    create_batch_streams now count0 sender ps =
      (batch_all_effects sender count0 ps ++
        [.setStreamCount (count0 + ps.length)],
       .ok (List.range' count0 ps.length)) ∧
    create_batch_streams now count0 sender (good ++ bad :: rest) =
      (batch_all_effects sender count0 good, .error e) :=
  ⟨create_batch_streams_all_valid now count0 sender ps hval,
   create_batch_streams_invalid now count0 sender good rest hgood hbad⟩

/-- Witness for C6: a singleton valid batch succeeds with id 0 and its
counter write; prepending that valid entry to an invalid one fails with
`InvalidAmount` after the valid entry's effects were issued. -/
theorem C6_batch_atomic_per_entry_witness :
    (∀ p ∈ [(⟨1, 9, 100, 10, 20⟩ : CreateStreamParams)], EntryValid 0 7 p) ∧
    (∀ p ∈ [(⟨1, 9, 100, 10, 20⟩ : CreateStreamParams)], EntryValid 0 7 p) ∧
    entry_error 0 7 ⟨2, 9, 0, 10, 20⟩ = some .InvalidAmount ∧
    (create_batch_streams 0 0 7 [⟨1, 9, 100, 10, 20⟩] =
        ([.transfer { token := 9, source := .ext 7, dest := .contract, amount := 100 },
          .setStream 0 ⟨0, 7, 1, 9, 100, 0, 10, 20, 10, .Active, 10⟩,
          .addSenderStream 7 0, .addRecipientStream 1 0, .setStreamCount 1],
         .ok [0]) ∧
      create_batch_streams 0 0 7 [⟨1, 9, 100, 10, 20⟩, ⟨2, 9, 0, 10, 20⟩] =
        ([.transfer { token := 9, source := .ext 7, dest := .contract, amount := 100 },
          .setStream 0 ⟨0, 7, 1, 9, 100, 0, 10, 20, 10, .Active, 10⟩,
          .addSenderStream 7 0, .addRecipientStream 1 0],
         .error .InvalidAmount)) :=
  ⟨by decide, by decide, by decide,
   C6_batch_atomic_per_entry 0 0 7 [⟨1, 9, 100, 10, 20⟩]
     [⟨1, 9, 100, 10, 20⟩] [] ⟨2, 9, 0, 10, 20⟩ .InvalidAmount
     (by decide) (by decide) (by decide)⟩

/-- C3: for every stream and vesting schedule obtained from a successful
creation and any sequence of claim and cancel/revoke calls (at
non-decreasing ledger times for vesting, where revocation may cap the
total), after every operation the claimed amount lies in
`[0, total_amount]` and each operation never decreases it. -/
theorem C3_claimed_within_bounds
    (nowS countS : Nat) (sender recipient tokenS : Address) (totalS : Int)
    (st en : Nat) (s0 : PayrollStream) (tsS : List Transfer)
    (opsS : List StreamOp)
    (hS : create_stream nowS countS sender recipient tokenS totalS st en =
        .ok (s0, tsS))
    (countV : Nat) (grantor beneficiary tokenV : Address) (totalV : Int)
    (stV cliffD : Nat) (cliffA : Int) (totalD : Nat) (lab : Nat) (rev : Bool)
    (v0 : VestingSchedule) (tsV : List Transfer) (t0 : Nat)
    (opsV : List VestingOp)
    (hV : create_schedule countV grantor beneficiary tokenV totalV stV cliffD
        cliffA totalD lab rev = .ok (v0, tsV))
    (hmV : vtimesMono t0 opsV = true) :
    (∀ pre suff, opsS = pre ++ suff →
       0 ≤ (streamRun s0 pre).claimed_amount ∧
       (streamRun s0 pre).claimed_amount ≤ (streamRun s0 pre).total_amount) ∧
    (∀ pre op suff, opsS = pre ++ op :: suff →
       (streamRun s0 pre).claimed_amount ≤
         (streamStep (streamRun s0 pre) op).claimed_amount) ∧
    (∀ pre suff, opsV = pre ++ suff →
       0 ≤ (vestingRun v0 pre).claimed_amount ∧
       (vestingRun v0 pre).claimed_amount ≤ (vestingRun v0 pre).total_amount) ∧
    (∀ pre op suff, opsV = pre ++ op :: suff →
       (vestingRun v0 pre).claimed_amount ≤
         (vestingStep (vestingRun v0 pre) op).claimed_amount) := by
  obtain ⟨_, hStot, _, _, hs0, _⟩ := create_stream_ok hS
  have hSinv : StreamInv s0 := by
    subst hs0
    exact ⟨le_refl 0, hStot.le⟩
  obtain ⟨hVtot, hVdur, hVcliff, hVca0, hVcat, hv0, _⟩ := create_schedule_ok hV
  have hVinv : VestingInv t0 v0 := by
    subst hv0
    exact ⟨le_refl 0, hVtot.le,
      fun _ => ⟨⟨hVtot, hVdur, hVcliff, hVca0, hVcat⟩,
        calculate_vested_nonneg t0 _ ⟨hVtot, hVdur, hVcliff, hVca0, hVcat⟩⟩⟩
  refine ⟨?_, ?_, ?_, ?_⟩
  · intro pre suff hsplit
    exact streamRun_inv pre s0 hSinv
  · intro pre op suff hsplit
    exact (streamStep_inv (streamRun s0 pre) op (streamRun_inv pre s0 hSinv)).2
  · intro pre suff hsplit
    subst hsplit
    have hmPre := vtimesMono_append hmV
    have := vestingRun_inv pre t0 v0 hVinv hmPre
    exact ⟨this.1, this.2.1⟩
  · intro pre op suff hsplit
    subst hsplit
    have hmPre := vtimesMono_append hmV
    have hInvPre := vestingRun_inv pre t0 v0 hVinv hmPre
    have hle := vtimesMono_mid hmV
    have hInvAt := VestingInv_weaken hInvPre hle
    exact (vestingStep_inv (vestingRun v0 pre) op hInvAt).2

/-- Witness for C3: a concrete stream (claim then cancel) and a concrete
vesting schedule (claim then revoke), checked after each prefix of the
trace. -/
theorem C3_claimed_within_bounds_witness :
    create_stream 0 0 1 2 3 100 0 10 =
      .ok (⟨0, 1, 2, 3, 100, 0, 0, 10, 0, .Active, 10⟩,
        [{ token := 3, source := .ext 1, dest := .contract, amount := 100 }]) ∧
    create_schedule 0 1 2 3 100 0 2 20 10 0 true =
      .ok (⟨0, 1, 2, 3, 100, 0, 0, 2, 20, 10, 0, .Active, true⟩, []) ∧
    vtimesMono 0 [VestingOp.claimOp 5 2, VestingOp.revokeOp 7 1] = true ∧
    (0 ≤ (streamRun ⟨0, 1, 2, 3, 100, 0, 0, 10, 0, .Active, 10⟩
        [StreamOp.claimOp 5 2]).claimed_amount ∧
      (streamRun ⟨0, 1, 2, 3, 100, 0, 0, 10, 0, .Active, 10⟩
        [StreamOp.claimOp 5 2]).claimed_amount ≤
      (streamRun ⟨0, 1, 2, 3, 100, 0, 0, 10, 0, .Active, 10⟩
        [StreamOp.claimOp 5 2]).total_amount) ∧
    (streamRun ⟨0, 1, 2, 3, 100, 0, 0, 10, 0, .Active, 10⟩
        [StreamOp.claimOp 5 2]).claimed_amount ≤
      (streamStep (streamRun ⟨0, 1, 2, 3, 100, 0, 0, 10, 0, .Active, 10⟩
        [StreamOp.claimOp 5 2]) (StreamOp.cancelOp 7 1)).claimed_amount ∧
    (0 ≤ (vestingRun ⟨0, 1, 2, 3, 100, 0, 0, 2, 20, 10, 0, .Active, true⟩
        [VestingOp.claimOp 5 2]).claimed_amount ∧
      (vestingRun ⟨0, 1, 2, 3, 100, 0, 0, 2, 20, 10, 0, .Active, true⟩
        [VestingOp.claimOp 5 2]).claimed_amount ≤
      (vestingRun ⟨0, 1, 2, 3, 100, 0, 0, 2, 20, 10, 0, .Active, true⟩
        [VestingOp.claimOp 5 2]).total_amount) ∧
    (vestingRun ⟨0, 1, 2, 3, 100, 0, 0, 2, 20, 10, 0, .Active, true⟩
        [VestingOp.claimOp 5 2]).claimed_amount ≤
      (vestingStep (vestingRun ⟨0, 1, 2, 3, 100, 0, 0, 2, 20, 10, 0, .Active, true⟩
        [VestingOp.claimOp 5 2]) (VestingOp.revokeOp 7 1)).claimed_amount :=
  ⟨rfl, rfl, by decide,
   (C3_claimed_within_bounds 0 0 1 2 3 100 0 10
      ⟨0, 1, 2, 3, 100, 0, 0, 10, 0, .Active, 10⟩
      [{ token := 3, source := .ext 1, dest := .contract, amount := 100 }]
      [StreamOp.claimOp 5 2, StreamOp.cancelOp 7 1] rfl
      0 1 2 3 100 0 2 20 10 0 true
      ⟨0, 1, 2, 3, 100, 0, 0, 2, 20, 10, 0, .Active, true⟩ [] 0
      [VestingOp.claimOp 5 2, VestingOp.revokeOp 7 1] rfl (by decide)).1
     [StreamOp.claimOp 5 2] [StreamOp.cancelOp 7 1] rfl,
   (C3_claimed_within_bounds 0 0 1 2 3 100 0 10
      ⟨0, 1, 2, 3, 100, 0, 0, 10, 0, .Active, 10⟩
      [{ token := 3, source := .ext 1, dest := .contract, amount := 100 }]
      [StreamOp.claimOp 5 2, StreamOp.cancelOp 7 1] rfl
      0 1 2 3 100 0 2 20 10 0 true
      ⟨0, 1, 2, 3, 100, 0, 0, 2, 20, 10, 0, .Active, true⟩ [] 0
      [VestingOp.claimOp 5 2, VestingOp.revokeOp 7 1] rfl (by decide)).2.1
     [StreamOp.claimOp 5 2] (StreamOp.cancelOp 7 1) [] rfl,
   (C3_claimed_within_bounds 0 0 1 2 3 100 0 10
      ⟨0, 1, 2, 3, 100, 0, 0, 10, 0, .Active, 10⟩
      [{ token := 3, source := .ext 1, dest := .contract, amount := 100 }]
      [StreamOp.claimOp 5 2, StreamOp.cancelOp 7 1] rfl
      0 1 2 3 100 0 2 20 10 0 true
      ⟨0, 1, 2, 3, 100, 0, 0, 2, 20, 10, 0, .Active, true⟩ [] 0
      [VestingOp.claimOp 5 2, VestingOp.revokeOp 7 1] rfl (by decide)).2.2.1
     [VestingOp.claimOp 5 2] [VestingOp.revokeOp 7 1] rfl,
   (C3_claimed_within_bounds 0 0 1 2 3 100 0 10
      ⟨0, 1, 2, 3, 100, 0, 0, 10, 0, .Active, 10⟩
      [{ token := 3, source := .ext 1, dest := .contract, amount := 100 }]
      [StreamOp.claimOp 5 2, StreamOp.cancelOp 7 1] rfl
      0 1 2 3 100 0 2 20 10 0 true
      ⟨0, 1, 2, 3, 100, 0, 0, 2, 20, 10, 0, .Active, true⟩ [] 0
      [VestingOp.claimOp 5 2, VestingOp.revokeOp 7 1] rfl (by decide)).2.2.2
     [VestingOp.claimOp 5 2] (VestingOp.revokeOp 7 1) [] rfl⟩

end OrbitPay
